import Mathlib

/-!
Verification of the von Mises distribution unit (`src/distribution/von_mises.rs`).

The unit holds an immutable pair (location μ, concentration κ), validated at
construction, exposes the fixed domain bounds −π/π, and evaluates the CDF by a
truncated Bessel series, delegating the modified Bessel values I₀(κ) and
I₁(κ)…I₁₀₀(κ) to the external GSL provider (`rgsl::bessel`).

Two embeddings are used:

* a real-number model (`VonMises`, `VonMises.cdf`), the standard idealisation
  of the `f64` arithmetic by exact reals, parameterised by an abstract Bessel
  provider (the provider is external library code, not part of this
  repository);
* a float-flavoured model (`FloatModel`), where values carry the IEEE special
  values NaN and ±∞ (finite arithmetic stays exact, i.e. overflow and rounding
  of finite intermediates are not modelled), used for the claims about NaN and
  infinite inputs.
-/

/-- Error type of the crate: `StatsError::BadParams` is the variant the
constructor returns on invalid parameters (the spec's `InvalidParameter`). -/
inductive StatsError where
  | BadParams : StatsError
  deriving DecidableEq

/-- Status value returned by the GSL Bessel routine (`rgsl::Value`):
`Success`, or any failing status carrying its error code. -/
inductive GslValue where
  | Success : GslValue
  | Failure : ℤ → GslValue
  deriving DecidableEq

/-- The von Mises distribution value: an immutable pair
(location μ, concentration κ), here idealised over ℝ. -/
structure VonMises where
  location : ℝ
  concentration : ℝ

/-- `Min::min for VonMises`: the fixed constant −π. -/
noncomputable def VonMises.min (_ : VonMises) : ℝ := -Real.pi

/-- `Max::max for VonMises`: the fixed constant π. -/
noncomputable def VonMises.max (_ : VonMises) : ℝ := Real.pi

/-- The external modified-Bessel provider, as consumed by `cdf`:
`In_array nmin nmax κ` returns the GSL status together with the array
contents (index `j` holds I_{nmin+j}(κ) on success), and `I0` returns
I₀(κ). The provider is external library code (GSL via `rgsl`), so it is
kept abstract: theorems quantify over it. -/
structure BesselProvider where
  In_array : ℕ → ℕ → ℝ → GslValue × (ℕ → ℝ)
  I0 : ℝ → ℝ

/-- Outcome of one `cdf` call. `ok r` is a normal return of the value `r`
(the Rust return type is a plain `f64`). `panicked c` records that the
function hit `panic!(other)` with the provider's failing status code `c`:
evaluation aborts and nothing is returned to the caller. `err c` is the
error-result return envisioned by the spec's stricter interface
(`Result<real, EvaluationError>`); it exists only so that claims about
returning an evaluator-level error can be stated — the source never
produces it. -/
inductive CdfResult where
  | ok : ℝ → CdfResult
  | err : ℤ → CdfResult
  | panicked : ℤ → CdfResult

/-- `Univariate::cdf for VonMises`, translated from the source:

```
let d = x - self.location;
let mut results: [f64; 100] = [0.0; 100];
match bessel::In_array(1, 100, self.concentration, &mut results) {
    Value::Success => {}
    other => panic!(other),
};
let sum: f64 = results.into_iter().enumerate()
    .map(|(j, i_j)| i_j * ((j + 1) as f64 * d).sin() / (j + 1) as f64)
    .sum();
0.5 + (d + (2.0 * sum / bessel::I0(self.concentration))) / (2.0 * f64::consts::PI)
```
-/
noncomputable def VonMises.cdf (p : BesselProvider) (v : VonMises) (x : ℝ) :
    CdfResult :=
  let d := x - v.location
  match p.In_array 1 100 v.concentration with
  | (GslValue.Success, results) =>
    CdfResult.ok
      (0.5 + (d + 2 * (∑ j in Finset.range 100,
          results j * Real.sin (((j : ℝ) + 1) * d) / ((j : ℝ) + 1)) /
            p.I0 v.concentration) / (2 * Real.pi))
  | (GslValue.Failure c, _) => CdfResult.panicked c

/-- The CDF formula exactly as the spec words it (for the refinement claim
C1, and only for it): d = x − μ; S = Σ_{j=1}^{100} I_j(κ)·sin(j·d)/j;
result 0.5 + (d + 2·S/I₀)/(2π). `I j` stands for I_j(κ) and `Izero` for
I₀(κ), both as delivered by the provider. -/
noncomputable def specCdf (I : ℕ → ℝ) (Izero : ℝ) (mu x : ℝ) : ℝ :=
  let d := x - mu
  let S := ∑ j in Finset.Icc 1 100, I j * Real.sin ((j : ℝ) * d) / (j : ℝ)
  0.5 + (d + 2 * S / Izero) / (2 * Real.pi)

namespace FloatModel

/-- An idealised `f64` value: NaN, a signed infinity (`inf true` = +∞,
`inf false` = −∞), or a finite value carried exactly as a real number
(rounding/overflow of finite arithmetic is not modelled; the IEEE special
values and their propagation are). -/
inductive F where
  | nan : F
  | inf : Bool → F
  | finite : ℝ → F

/-- `f64::is_nan`. -/
def F.isNan : F → Bool
  | F.nan => true
  | _ => false

/-- The Rust comparison `value <= 0.0` on an `f64`: false on NaN, true on
−∞, false on +∞, the real comparison on finite values. -/
def F.leZero : F → Prop
  | F.nan => False
  | F.inf b => b = false
  | F.finite x => x ≤ 0

/-- IEEE subtraction on the special values; exact on finite ones. -/
noncomputable def F.sub : F → F → F
  | F.nan, _ => F.nan
  | _, F.nan => F.nan
  | F.inf p, F.inf q => if p = q then F.nan else F.inf p
  | F.inf p, F.finite _ => F.inf p
  | F.finite _, F.inf q => F.inf (!q)
  | F.finite a, F.finite b => F.finite (a - b)

/-- IEEE addition on the special values; exact on finite ones. -/
noncomputable def F.add : F → F → F
  | F.nan, _ => F.nan
  | _, F.nan => F.nan
  | F.inf p, F.inf q => if p = q then F.inf p else F.nan
  | F.inf p, F.finite _ => F.inf p
  | F.finite _, F.inf q => F.inf q
  | F.finite a, F.finite b => F.finite (a + b)

/-- IEEE multiplication on the special values; exact on finite ones
(signed zero is not modelled: 0·∞ = NaN as in IEEE). -/
noncomputable def F.mul : F → F → F
  | F.nan, _ => F.nan
  | _, F.nan => F.nan
  | F.inf p, F.inf q => F.inf (p = q)
  | F.inf p, F.finite x =>
      if x = 0 then F.nan else if 0 < x then F.inf p else F.inf (!p)
  | F.finite x, F.inf q =>
      if x = 0 then F.nan else if 0 < x then F.inf q else F.inf (!q)
  | F.finite a, F.finite b => F.finite (a * b)

/-- IEEE division on the special values; exact on finite ones (signed
zero is not modelled: finite/0 takes the numerator's sign, 0/0 = NaN). -/
noncomputable def F.div : F → F → F
  | F.nan, _ => F.nan
  | _, F.nan => F.nan
  | F.inf _, F.inf _ => F.nan
  | F.inf p, F.finite x =>
      if 0 ≤ x then F.inf p else F.inf (!p)
  | F.finite _, F.inf _ => F.finite 0
  | F.finite a, F.finite b =>
      if b = 0 then
        (if a = 0 then F.nan else if 0 < a then F.inf true else F.inf false)
      else F.finite (a / b)

/-- `f64::sin`: NaN on NaN and on ±∞, the real sine on finite values. -/
noncomputable def F.sin : F → F
  | F.finite x => F.finite (Real.sin x)
  | _ => F.nan

/-- The distribution value with its `f64` fields kept as idealised floats. -/
structure VonMises where
  location : F
  concentration : F

open Classical in
/-- `VonMises::new`, translated from the source:

```
if location.is_nan() || concentration.is_nan() || concentration <= 0.0 {
    Err(StatsError::BadParams)
} else {
    Ok(VonMises { location, concentration })
}
```
-/
noncomputable def VonMises.new (location concentration : F) :
    Except StatsError VonMises :=
  if location.isNan = true ∨ concentration.isNan = true ∨ concentration.leZero
  then Except.error StatsError.BadParams
  else Except.ok ⟨location, concentration⟩

/-- The Bessel provider with float-valued inputs and outputs. -/
structure BesselProvider where
  In_array : ℕ → ℕ → F → GslValue × (ℕ → F)
  I0 : F → F

/-- Outcome of a `cdf` call in the float model: a returned value, or a
`panic!` with the provider's failing status code. -/
inductive CdfResult where
  | ok : F → CdfResult
  | panicked : ℤ → CdfResult

/-- `Univariate::cdf for VonMises` in the float model: the same source
translation as `VonMises.cdf`, with the 100-term sum accumulated left to
right from 0.0 as Rust's `Iterator::sum` does. -/
noncomputable def VonMises.cdf (p : BesselProvider) (v : VonMises) (x : F) :
    CdfResult :=
  let d := F.sub x v.location
  match p.In_array 1 100 v.concentration with
  | (GslValue.Success, results) =>
    let sum := (List.range 100).foldl
      (fun acc j =>
        F.add acc
          (F.div (F.mul (results j) (F.sin (F.mul (F.finite ((j : ℝ) + 1)) d)))
            (F.finite ((j : ℝ) + 1))))
      (F.finite 0)
    CdfResult.ok
      (F.add (F.finite 0.5)
        (F.div
          (F.add d (F.div (F.mul (F.finite 2) sum) (p.I0 v.concentration)))
          (F.mul (F.finite 2) (F.finite Real.pi))))
  | (GslValue.Failure c, _) => CdfResult.panicked c

end FloatModel

/-- Modelled from the spec: the modified Bessel function of the first kind
I_n, the quantity the external Bessel provider (GSL, consumed as a numeric
service and not part of this repository) is specified to return
(section 4.3: I₁(κ)…I_N(κ) and I₀(κ); glossary: modified Bessel function
of the first kind). Series definition I_n(x) = Σ_m (x/2)^(2m+n)/(m!(m+n)!). -/
noncomputable def besselI (n : ℕ) (x : ℝ) : ℝ :=
  tsum fun m : ℕ =>
    (x / 2) ^ (2 * m + n) / ((Nat.factorial m : ℝ) * (Nat.factorial (m + n) : ℝ))

/-! ### Helper lemmas on the float arithmetic -/

namespace FloatModel

theorem F.nan_sub (y : F) : F.sub F.nan y = F.nan := by cases y <;> rfl

theorem F.nan_add (y : F) : F.add F.nan y = F.nan := by cases y <;> rfl

theorem F.add_nan (x : F) : F.add x F.nan = F.nan := by cases x <;> rfl

theorem F.mul_nan (x : F) : F.mul x F.nan = F.nan := by cases x <;> rfl

theorem F.nan_div (y : F) : F.div F.nan y = F.nan := by cases y <;> rfl

theorem F.sin_nan : F.sin F.nan = F.nan := rfl

end FloatModel

/-! ### Claim theorems -/

/-- C7: the domain-bounds accessors return the fixed constants −π and π for
every distribution value, independent of its location and concentration. -/
theorem min_max_constant (v : VonMises) :
    v.min = -Real.pi ∧ v.max = Real.pi :=
  ⟨rfl, rfl⟩

/-- C4: for every valid distribution and a successful provider call,
evaluating the CDF at the location itself returns exactly 0.5 (hence
certainly within the 1e-6 truncation tolerance). -/
theorem cdf_at_location_eq_half (p : BesselProvider) (v : VonMises)
    (results : ℕ → ℝ) (hk : 0 < v.concentration)
    (hp : p.In_array 1 100 v.concentration = (GslValue.Success, results)) :
    v.cdf p v.location = CdfResult.ok 0.5 := by
  simp [VonMises.cdf, hp, sub_self, mul_zero, Real.sin_zero, zero_div,
    Finset.sum_const_zero, add_zero]

/-- C4 witness: a concrete provider and distribution. -/
theorem cdf_at_location_eq_half_witness :
    VonMises.cdf ⟨fun _ _ _ => (GslValue.Success, fun _ => (0 : ℝ)),
        fun _ => (1 : ℝ)⟩ ⟨0, 1⟩ 0 = CdfResult.ok 0.5 :=
  cdf_at_location_eq_half _ ⟨0, 1⟩ (fun _ => 0) (by norm_num) rfl

/-- C6: for every valid distribution, every offset t ∈ (0, π] and a
successful provider call, the CDF is symmetric about the mean:
cdf(μ − t) + cdf(μ + t) = 1 (exactly, in the real model). -/
theorem cdf_symmetric_about_location (p : BesselProvider) (v : VonMises)
    (results : ℕ → ℝ) (t : ℝ) (hk : 0 < v.concentration) (ht0 : 0 < t)
    (htpi : t ≤ Real.pi)
    (hp : p.In_array 1 100 v.concentration = (GslValue.Success, results)) :
    ∃ a b : ℝ, v.cdf p (v.location - t) = CdfResult.ok a ∧
      v.cdf p (v.location + t) = CdfResult.ok b ∧ a + b = 1 := by
  simp only [VonMises.cdf, hp]
  refine ⟨_, _, rfl, rfl, ?_⟩
  have hd1 : v.location - t - v.location = -t := by ring
  have hd2 : v.location + t - v.location = t := by ring
  rw [hd1, hd2]
  have hS : (∑ j in Finset.range 100,
        results j * Real.sin (((j : ℝ) + 1) * -t) / ((j : ℝ) + 1)) =
      -∑ j in Finset.range 100,
        results j * Real.sin (((j : ℝ) + 1) * t) / ((j : ℝ) + 1) := by
    rw [← Finset.sum_neg_distrib]
    refine Finset.sum_congr rfl fun j _ => ?_
    rw [mul_neg, Real.sin_neg, mul_neg, neg_div]
  rw [hS]
  ring

/-- C6 witness: a concrete provider, distribution and offset. -/
theorem cdf_symmetric_about_location_witness :
    ∃ a b : ℝ,
      VonMises.cdf ⟨fun _ _ _ => (GslValue.Success, fun _ => (0 : ℝ)),
          fun _ => (1 : ℝ)⟩ ⟨0, 1⟩ ((0 : ℝ) - 1) = CdfResult.ok a ∧
      VonMises.cdf ⟨fun _ _ _ => (GslValue.Success, fun _ => (0 : ℝ)),
          fun _ => (1 : ℝ)⟩ ⟨0, 1⟩ ((0 : ℝ) + 1) = CdfResult.ok b ∧
      a + b = 1 :=
  cdf_symmetric_about_location _ ⟨0, 1⟩ (fun _ => 0) 1 (by norm_num)
    (by norm_num) (by have := Real.pi_gt_three; linarith) rfl

/-- C5 counterexample: the claim says a provider failure is propagated as an
evaluator-level error result to the caller; at a concrete failing provider
the code instead hits `panic!` with the provider status, and the result is
not an error return. -/
theorem cdf_provider_failure_not_err :
    VonMises.cdf ⟨fun _ _ _ => (GslValue.Failure 1, fun _ => (0 : ℝ)),
        fun _ => (1 : ℝ)⟩ ⟨0, 1⟩ 0 = CdfResult.panicked 1 ∧
    ¬ ∃ e : ℤ,
      VonMises.cdf ⟨fun _ _ _ => (GslValue.Failure 1, fun _ => (0 : ℝ)),
          fun _ => (1 : ℝ)⟩ ⟨0, 1⟩ 0 = CdfResult.err e := by
  refine ⟨rfl, ?_⟩
  rintro ⟨e, he⟩
  rw [(rfl :
    VonMises.cdf ⟨fun _ _ _ => (GslValue.Failure 1, fun _ => (0 : ℝ)),
        fun _ => (1 : ℝ)⟩ ⟨0, 1⟩ 0 = CdfResult.panicked 1)] at he
  exact CdfResult.noConfusion he

/-- C5 amended: when the provider reports any failing status, `cdf` panics
with exactly that status value — it performs no retry, no fallback series,
and never substitutes a default value for the missing Bessel results. -/
theorem cdf_provider_failure_panics (p : BesselProvider) (v : VonMises)
    (x : ℝ) (c : ℤ) (results : ℕ → ℝ)
    (hp : p.In_array 1 100 v.concentration = (GslValue.Failure c, results)) :
    v.cdf p x = CdfResult.panicked c := by
  simp only [VonMises.cdf, hp]

/-- C5 amended witness: a concrete failing provider. -/
theorem cdf_provider_failure_panics_witness :
    VonMises.cdf ⟨fun _ _ _ => (GslValue.Failure 7, fun _ => (0 : ℝ)),
        fun _ => (1 : ℝ)⟩ ⟨0, 1⟩ 0 = CdfResult.panicked 7 :=
  cdf_provider_failure_panics _ ⟨0, 1⟩ 0 7 (fun _ => 0) rfl

/-- C1: for every validated distribution and every query point, with a
successful provider call delivering I₁(κ)…I₁₀₀(κ) (array slot j holding
I_{j+1}(κ)) and I₀(κ), `cdf` returns exactly the value the spec
prescribes: 0.5 + (d + 2·S/I₀)/(2π) with d = x − μ and
S = Σ_{j=1}^{100} I_j(κ)·sin(j·d)/j. -/
theorem cdf_eq_spec_formula (p : BesselProvider) (v : VonMises) (x : ℝ)
    (results : ℕ → ℝ) (hk : 0 < v.concentration)
    (hp : p.In_array 1 100 v.concentration = (GslValue.Success, results)) :
    v.cdf p x = CdfResult.ok
      (specCdf (fun j => results (j - 1)) (p.I0 v.concentration)
        v.location x) := by
  have hsum : (∑ j in Finset.Icc 1 100,
        results (j - 1) * Real.sin ((j : ℝ) * (x - v.location)) / (j : ℝ)) =
      ∑ j in Finset.range 100,
        results j * Real.sin (((j : ℝ) + 1) * (x - v.location)) /
          ((j : ℝ) + 1) := by
    rw [← Nat.Ico_succ_right, Finset.sum_Ico_eq_sum_range]
    simp only [Nat.succ_sub_one]
    refine Finset.sum_congr rfl fun j _ => ?_
    have h1 : 1 + j - 1 = j := Nat.add_sub_cancel_left 1 j
    rw [h1]
    push_cast
    rw [add_comm (1 : ℝ) (j : ℝ)]
  simp only [VonMises.cdf, hp, specCdf]
  rw [hsum]

/-- C1 witness: a concrete provider, distribution and query point. -/
theorem cdf_eq_spec_formula_witness :
    VonMises.cdf ⟨fun _ _ _ => (GslValue.Success, fun _ => (0 : ℝ)),
        fun _ => (1 : ℝ)⟩ ⟨0, 1⟩ 2 =
      CdfResult.ok (specCdf (fun _ => (0 : ℝ)) (1 : ℝ) 0 2) :=
  cdf_eq_spec_formula _ ⟨0, 1⟩ 2 (fun _ => 0) (by norm_num) rfl

/-- C2: construction fails with `BadParams` exactly when the location is
NaN, the concentration is NaN, or the concentration compares ≤ 0; every
other input pair yields a distribution storing exactly the given fields
(the constructor is a pure function: no side effects). -/
theorem new_error_iff_invalid (l c : FloatModel.F) :
    (FloatModel.VonMises.new l c = Except.error StatsError.BadParams ↔
      (l.isNan = true ∨ c.isNan = true ∨ c.leZero)) ∧
    (¬ (l.isNan = true ∨ c.isNan = true ∨ c.leZero) →
      FloatModel.VonMises.new l c = Except.ok ⟨l, c⟩) := by
  unfold FloatModel.VonMises.new
  by_cases h : l.isNan = true ∨ c.isNan = true ∨ c.leZero
  · rw [if_pos h]
    exact ⟨⟨fun _ => h, fun _ => rfl⟩, fun hn => absurd h hn⟩
  · rw [if_neg h]
    exact ⟨⟨fun heq => absurd heq (by simp), fun hh => absurd hh h⟩,
      fun _ => rfl⟩

/-- C2 witness: a valid pair is accepted and stored unchanged. -/
theorem new_error_iff_invalid_witness :
    FloatModel.VonMises.new (FloatModel.F.finite 0) (FloatModel.F.finite 1) =
      Except.ok ⟨FloatModel.F.finite 0, FloatModel.F.finite 1⟩ :=
  (new_error_iff_invalid _ _).2
    (by norm_num [FloatModel.F.isNan, FloatModel.F.leZero])

/-- C9: infinite parameters pass validation: a ±∞ location with any valid
concentration, and a +∞ concentration with any non-NaN location, are
accepted — only NaN inputs and concentration ≤ 0 are rejected. -/
theorem new_accepts_infinite_params (b : Bool) (l c : FloatModel.F)
    (hc : c.isNan = false) (hcz : ¬ c.leZero) (hl : l.isNan = false) :
    FloatModel.VonMises.new (FloatModel.F.inf b) c =
      Except.ok ⟨FloatModel.F.inf b, c⟩ ∧
    FloatModel.VonMises.new l (FloatModel.F.inf true) =
      Except.ok ⟨l, FloatModel.F.inf true⟩ := by
  constructor
  · unfold FloatModel.VonMises.new
    rw [if_neg]
    rintro (h | h | h)
    · simp [FloatModel.F.isNan] at h
    · rw [hc] at h; exact Bool.noConfusion h
    · exact hcz h
  · unfold FloatModel.VonMises.new
    rw [if_neg]
    rintro (h | h | h)
    · rw [hl] at h; exact Bool.noConfusion h
    · simp [FloatModel.F.isNan] at h
    · simp [FloatModel.F.leZero] at h

/-- C9 witness: concrete infinite parameters. -/
theorem new_accepts_infinite_params_witness :
    FloatModel.VonMises.new (FloatModel.F.inf true) (FloatModel.F.finite 1) =
      Except.ok ⟨FloatModel.F.inf true, FloatModel.F.finite 1⟩ ∧
    FloatModel.VonMises.new (FloatModel.F.finite 0)
        (FloatModel.F.inf true) =
      Except.ok ⟨FloatModel.F.finite 0, FloatModel.F.inf true⟩ :=
  new_accepts_infinite_params true (FloatModel.F.finite 0)
    (FloatModel.F.finite 1) rfl
    (by norm_num [FloatModel.F.leZero]) rfl

/-- C10: for every valid distribution (one produced by the validated
constructor) and a successful provider call, evaluating `cdf` at a NaN
query point neither fails nor raises an error: the NaN enters through
d = x − μ, propagates through the arithmetic, and the call returns NaN. -/
theorem cdf_nan_query_returns_nan (p : FloatModel.BesselProvider)
    (l c : FloatModel.F) (v : FloatModel.VonMises)
    (results : ℕ → FloatModel.F)
    (hv : FloatModel.VonMises.new l c = Except.ok v)
    (hp : p.In_array 1 100 v.concentration = (GslValue.Success, results)) :
    FloatModel.VonMises.cdf p v FloatModel.F.nan =
      FloatModel.CdfResult.ok FloatModel.F.nan := by
  simp only [FloatModel.VonMises.cdf, hp, FloatModel.F.nan_sub,
    FloatModel.F.nan_add, FloatModel.F.nan_div, FloatModel.F.add_nan]

/-- C10 witness: a concrete valid distribution and provider. -/
theorem cdf_nan_query_returns_nan_witness :
    FloatModel.VonMises.cdf
      ⟨fun _ _ _ => (GslValue.Success, fun _ => FloatModel.F.finite 0),
        fun _ => FloatModel.F.finite 1⟩
      ⟨FloatModel.F.finite 0, FloatModel.F.finite 1⟩ FloatModel.F.nan =
      FloatModel.CdfResult.ok FloatModel.F.nan :=
  cdf_nan_query_returns_nan _ (FloatModel.F.finite 0) (FloatModel.F.finite 1)
    ⟨FloatModel.F.finite 0, FloatModel.F.finite 1⟩ (fun _ => FloatModel.F.finite 0)
    (by norm_num [FloatModel.VonMises.new, FloatModel.F.isNan,
      FloatModel.F.leZero]) rfl


/-! ### Certified enclosures for the Bessel series and the sine function,
used to settle the literal CDF scenarios against the spec-modelled provider. -/

theorem besselTerm_succ (n m : ℕ) (x : ℝ) :
    (x / 2) ^ (2 * (m + 1) + n) /
        ((Nat.factorial (m + 1) : ℝ) * (Nat.factorial (m + 1 + n) : ℝ)) =
      ((x / 2) ^ (2 * m + n) / ((Nat.factorial m : ℝ) * (Nat.factorial (m + n) : ℝ))) *
        ((x / 2) ^ 2 / (((m : ℝ) + 1) * ((m : ℝ) + (n : ℝ) + 1))) := by
  have hm : (Nat.factorial m : ℝ) ≠ 0 := Nat.cast_ne_zero.mpr (Nat.factorial_ne_zero m)
  have hmn : (Nat.factorial (m + n) : ℝ) ≠ 0 := Nat.cast_ne_zero.mpr (Nat.factorial_ne_zero _)
  rw [show m + 1 + n = (m + n) + 1 from by ring, Nat.factorial_succ, Nat.factorial_succ,
    show 2 * (m + 1) + n = (2 * m + n) + 2 from by ring, pow_add]
  push_cast
  rw [div_mul_div_comm]
  congr 1
  ring

theorem besselI_summable (n : ℕ) (x : ℝ) :
    Summable (fun m : ℕ =>
      (x / 2) ^ (2 * m + n) / ((Nat.factorial m : ℝ) * (Nat.factorial (m + n) : ℝ))) := by
  have hr : (1 : ℝ) / 2 < 1 := by norm_num
  refine summable_of_ratio_norm_eventually_le hr ?_
  filter_upwards [Filter.eventually_ge_atTop (Nat.ceil (2 * (x / 2) ^ 2))] with m hm
  rw [besselTerm_succ n m x, norm_mul]
  have h2 : ‖(x / 2) ^ 2 / (((m : ℝ) + 1) * ((m : ℝ) + (n : ℝ) + 1))‖ ≤ 1 / 2 := by
    rw [Real.norm_eq_abs, abs_div, abs_of_nonneg (by positivity : (0:ℝ) ≤ (x / 2) ^ 2),
      abs_of_nonneg (by positivity : (0:ℝ) ≤ ((m : ℝ) + 1) * ((m : ℝ) + (n : ℝ) + 1))]
    rw [div_le_iff (by positivity)]
    have hm' : 2 * (x / 2) ^ 2 ≤ (m : ℝ) := le_trans (Nat.le_ceil _) (Nat.cast_le.mpr hm)
    have h3 : (0:ℝ) ≤ ((m : ℝ) + 1) * ((m : ℝ) + (n : ℝ)) := by positivity
    nlinarith [(Nat.cast_nonneg n : (0:ℝ) ≤ (n : ℕ)), (Nat.cast_nonneg m : (0:ℝ) ≤ (m : ℕ))]
  calc ‖(x / 2) ^ (2 * m + n) / ((Nat.factorial m : ℝ) * (Nat.factorial (m + n) : ℝ))‖ *
        ‖(x / 2) ^ 2 / (((m : ℝ) + 1) * ((m : ℝ) + (n : ℝ) + 1))‖
      ≤ ‖(x / 2) ^ (2 * m + n) / ((Nat.factorial m : ℝ) * (Nat.factorial (m + n) : ℝ))‖ *
        (1 / 2) := mul_le_mul_of_nonneg_left h2 (norm_nonneg _)
    _ = 1 / 2 * ‖(x / 2) ^ (2 * m + n) /
          ((Nat.factorial m : ℝ) * (Nat.factorial (m + n) : ℝ))‖ := mul_comm _ _

theorem besselI_ge (n M : ℕ) (x : ℝ) (hx : 0 ≤ x) :
    ∑ m in Finset.range M,
        (x / 2) ^ (2 * m + n) / ((Nat.factorial m : ℝ) * (Nat.factorial (m + n) : ℝ)) ≤
      besselI n x :=
  sum_le_tsum _ (fun i _ => by positivity) (besselI_summable n x)

theorem besselI_nonneg (n : ℕ) (x : ℝ) (hx : 0 ≤ x) : 0 ≤ besselI n x :=
  tsum_nonneg fun m => by positivity

theorem abs_tsum_le_geom (g : ℕ → ℝ) (t q : ℝ) (hq0 : 0 ≤ q) (hq1 : q < 1)
    (hg : ∀ m : ℕ, |g m| ≤ t * q ^ m) : |tsum g| ≤ t / (1 - q) := by
  have ht : 0 ≤ t := by
    have h0 := hg 0
    simp only [pow_zero, mul_one] at h0
    exact le_trans (abs_nonneg _) h0
  have hsum_geom : Summable (fun m : ℕ => t * q ^ m) :=
    (summable_geometric_of_lt_one hq0 hq1).mul_left t
  have hgabs : Summable (fun m => |g m|) :=
    Summable.of_nonneg_of_le (fun m => abs_nonneg _) hg hsum_geom
  have hgsum : Summable g := hgabs.of_abs
  have h1 : |tsum g| ≤ tsum fun m => |g m| := by
    have := norm_tsum_le_tsum_norm (by simpa [Real.norm_eq_abs] using hgabs : Summable fun m => ‖g m‖)
    simpa [Real.norm_eq_abs] using this
  have h2 : (tsum fun m => |g m|) ≤ tsum fun m : ℕ => t * q ^ m :=
    tsum_le_tsum hg hgabs hsum_geom
  have h3 : (tsum fun m : ℕ => t * q ^ m) = t / (1 - q) := by
    rw [tsum_mul_left, tsum_geometric_of_lt_one hq0 hq1, div_eq_mul_inv]
  linarith

theorem besselI_le (n M : ℕ) (x r : ℝ) (hx : 0 ≤ x) (hr0 : 0 ≤ r) (hr1 : r < 1)
    (hrM : (x / 2) ^ 2 ≤ r * (((M : ℝ) + 1) * ((M : ℝ) + (n : ℝ) + 1))) :
    besselI n x ≤
      (∑ m in Finset.range M,
        (x / 2) ^ (2 * m + n) / ((Nat.factorial m : ℝ) * (Nat.factorial (m + n) : ℝ)))
        + ((x / 2) ^ (2 * M + n) / ((Nat.factorial M : ℝ) * (Nat.factorial (M + n) : ℝ)))
          / (1 - r) := by
  have hsummable := besselI_summable n x
  have hsplit := sum_add_tsum_nat_add M hsummable
  have htail : ∀ i : ℕ,
      |(x / 2) ^ (2 * (i + M) + n) /
          ((Nat.factorial (i + M) : ℝ) * (Nat.factorial (i + M + n) : ℝ))| ≤
        ((x / 2) ^ (2 * M + n) / ((Nat.factorial M : ℝ) * (Nat.factorial (M + n) : ℝ))) *
          r ^ i := by
    intro i
    induction i with
    | zero =>
      simp only [Nat.zero_add, pow_zero, mul_one, zero_add]
      rw [abs_of_nonneg (by positivity)]
    | succ i ih =>
      rw [show i + 1 + M = (i + M) + 1 from by ring, besselTerm_succ n (i + M) x, abs_mul]
      have h1 : |(x / 2) ^ 2 / ((((i + M : ℕ) : ℝ) + 1) * (((i + M : ℕ) : ℝ) + (n : ℝ) + 1))|
          ≤ r := by
        rw [abs_div, abs_of_nonneg (by positivity : (0:ℝ) ≤ (x / 2) ^ 2),
          abs_of_nonneg (by positivity :
            (0:ℝ) ≤ (((i + M : ℕ) : ℝ) + 1) * (((i + M : ℕ) : ℝ) + (n : ℝ) + 1))]
        rw [div_le_iff (by positivity)]
        push_cast
        nlinarith [hrM, (Nat.cast_nonneg i : (0:ℝ) ≤ (i : ℕ)),
          (Nat.cast_nonneg M : (0:ℝ) ≤ (M : ℕ)), (Nat.cast_nonneg n : (0:ℝ) ≤ (n : ℕ)),
          mul_nonneg hr0 (Nat.cast_nonneg i : (0:ℝ) ≤ (i : ℕ)),
          mul_nonneg (mul_nonneg hr0 (Nat.cast_nonneg i : (0:ℝ) ≤ (i : ℕ)))
            (Nat.cast_nonneg i : (0:ℝ) ≤ (i : ℕ)),
          mul_nonneg (mul_nonneg hr0 (Nat.cast_nonneg i : (0:ℝ) ≤ (i : ℕ)))
            (Nat.cast_nonneg M : (0:ℝ) ≤ (M : ℕ)),
          mul_nonneg (mul_nonneg hr0 (Nat.cast_nonneg i : (0:ℝ) ≤ (i : ℕ)))
            (Nat.cast_nonneg n : (0:ℝ) ≤ (n : ℕ))]
      calc |(x / 2) ^ (2 * (i + M) + n) /
              ((Nat.factorial (i + M) : ℝ) * (Nat.factorial (i + M + n) : ℝ))| *
            |(x / 2) ^ 2 / ((((i + M : ℕ) : ℝ) + 1) * (((i + M : ℕ) : ℝ) + (n : ℝ) + 1))|
          ≤ (((x / 2) ^ (2 * M + n) /
              ((Nat.factorial M : ℝ) * (Nat.factorial (M + n) : ℝ))) * r ^ i) *
            |(x / 2) ^ 2 / ((((i + M : ℕ) : ℝ) + 1) * (((i + M : ℕ) : ℝ) + (n : ℝ) + 1))| :=
            mul_le_mul_of_nonneg_right ih (abs_nonneg _)
        _ ≤ (((x / 2) ^ (2 * M + n) /
              ((Nat.factorial M : ℝ) * (Nat.factorial (M + n) : ℝ))) * r ^ i) * r :=
            mul_le_mul_of_nonneg_left h1 (by positivity)
        _ = ((x / 2) ^ (2 * M + n) /
              ((Nat.factorial M : ℝ) * (Nat.factorial (M + n) : ℝ))) * r ^ (i + 1) := by ring
  have habs := abs_tsum_le_geom
    (fun i => (x / 2) ^ (2 * (i + M) + n) /
      ((Nat.factorial (i + M) : ℝ) * (Nat.factorial (i + M + n) : ℝ)))
    ((x / 2) ^ (2 * M + n) / ((Nat.factorial M : ℝ) * (Nat.factorial (M + n) : ℝ)))
    r hr0 hr1 htail
  have h2 : (tsum fun i : ℕ => (x / 2) ^ (2 * (i + M) + n) /
        ((Nat.factorial (i + M) : ℝ) * (Nat.factorial (i + M + n) : ℝ))) ≤
      ((x / 2) ^ (2 * M + n) / ((Nat.factorial M : ℝ) * (Nat.factorial (M + n) : ℝ))) /
        (1 - r) := le_trans (le_abs_self _) habs
  rw [besselI, ← hsplit]
  linarith

theorem sinAbsTerm_succ (c : ℝ) (k : ℕ) :
    |c| ^ (2 * (k + 1) + 1) / (Nat.factorial (2 * (k + 1) + 1) : ℝ) =
      (|c| ^ (2 * k + 1) / (Nat.factorial (2 * k + 1) : ℝ)) *
        (|c| ^ 2 / ((2 * (k : ℝ) + 2) * (2 * (k : ℝ) + 3))) := by
  rw [show 2 * (k + 1) + 1 = (2 * k + 1) + 2 from by ring, pow_add,
    show (2 * k + 1) + 2 = ((2 * k + 1) + 1) + 1 from rfl, Nat.factorial_succ,
    Nat.factorial_succ]
  push_cast
  rw [div_mul_div_comm]
  congr 1
  ring

theorem sin_taylor_10 (c : ℝ) (hc : |c| ≤ 3.2) :
    |Real.sin c - ∑ n in Finset.range 10,
        (-1) ^ n * c ^ (2 * n + 1) / (Nat.factorial (2 * n + 1) : ℝ)|
      ≤ |c| ^ 21 / (Nat.factorial 21 : ℝ) * 2 := by
  have h := Real.hasSum_sin c
  have hs : Summable (fun n : ℕ =>
      (-1) ^ n * c ^ (2 * n + 1) / (Nat.factorial (2 * n + 1) : ℝ)) := h.summable
  have hsplit := sum_add_tsum_nat_add 10 hs
  rw [h.tsum_eq] at hsplit
  have habs_eq : ∀ k : ℕ,
      |(-1) ^ k * c ^ (2 * k + 1) / (Nat.factorial (2 * k + 1) : ℝ)| =
        |c| ^ (2 * k + 1) / (Nat.factorial (2 * k + 1) : ℝ) := by
    intro k
    rw [abs_div, abs_mul, abs_pow, abs_pow, abs_neg, abs_one, one_pow, one_mul,
      abs_of_nonneg (by positivity : (0:ℝ) ≤ (Nat.factorial (2 * k + 1) : ℝ))]
  have hc2 : |c| ^ 2 ≤ 10.24 := by
    calc |c| ^ 2 ≤ (3.2 : ℝ) ^ 2 := pow_le_pow_left (abs_nonneg c) hc 2
      _ = 10.24 := by norm_num
  have htail : ∀ i : ℕ,
      |(-1) ^ (i + 10) * c ^ (2 * (i + 10) + 1) / (Nat.factorial (2 * (i + 10) + 1) : ℝ)|
        ≤ (|c| ^ 21 / (Nat.factorial 21 : ℝ)) * (1 / 49) ^ i := by
    intro i
    rw [habs_eq]
    induction i with
    | zero => norm_num
    | succ i ih =>
      rw [show i + 1 + 10 = (i + 10) + 1 from by ring, sinAbsTerm_succ c (i + 10)]
      have h1 : |c| ^ 2 / ((2 * ((i + 10 : ℕ) : ℝ) + 2) * (2 * ((i + 10 : ℕ) : ℝ) + 3))
          ≤ 1 / 49 := by
        rw [div_le_iff (by positivity)]
        push_cast
        nlinarith [(Nat.cast_nonneg i : (0:ℝ) ≤ (i : ℕ))]
      calc (|c| ^ (2 * (i + 10) + 1) / (Nat.factorial (2 * (i + 10) + 1) : ℝ)) *
            (|c| ^ 2 / ((2 * ((i + 10 : ℕ) : ℝ) + 2) * (2 * ((i + 10 : ℕ) : ℝ) + 3)))
          ≤ ((|c| ^ 21 / (Nat.factorial 21 : ℝ)) * (1 / 49) ^ i) *
            (|c| ^ 2 / ((2 * ((i + 10 : ℕ) : ℝ) + 2) * (2 * ((i + 10 : ℕ) : ℝ) + 3))) :=
            mul_le_mul_of_nonneg_right ih (by positivity)
        _ ≤ ((|c| ^ 21 / (Nat.factorial 21 : ℝ)) * (1 / 49) ^ i) * (1 / 49) :=
            mul_le_mul_of_nonneg_left h1 (by positivity)
        _ = (|c| ^ 21 / (Nat.factorial 21 : ℝ)) * (1 / 49) ^ (i + 1) := by ring
  have habs := abs_tsum_le_geom
    (fun i => (-1) ^ (i + 10) * c ^ (2 * (i + 10) + 1) / (Nat.factorial (2 * (i + 10) + 1) : ℝ))
    (|c| ^ 21 / (Nat.factorial 21 : ℝ)) (1 / 49) (by norm_num) (by norm_num) htail
  have heq : Real.sin c - ∑ n in Finset.range 10,
      (-1) ^ n * c ^ (2 * n + 1) / (Nat.factorial (2 * n + 1) : ℝ) =
      tsum fun i : ℕ => (-1) ^ (i + 10) * c ^ (2 * (i + 10) + 1) /
        (Nat.factorial (2 * (i + 10) + 1) : ℝ) := by linarith
  rw [heq]
  have ht : (0:ℝ) ≤ |c| ^ 21 / (Nat.factorial 21 : ℝ) := by positivity
  have h49 : |c| ^ 21 / (Nat.factorial 21 : ℝ) / (1 - 1 / 49) =
      |c| ^ 21 / (Nat.factorial 21 : ℝ) * (49 / 48) := by
    rw [show (1:ℝ) - 1 / 49 = 48 / 49 from by norm_num]
    ring
  calc |tsum fun i : ℕ => (-1) ^ (i + 10) * c ^ (2 * (i + 10) + 1) /
        (Nat.factorial (2 * (i + 10) + 1) : ℝ)|
      ≤ |c| ^ 21 / (Nat.factorial 21 : ℝ) / (1 - 1 / 49) := habs
    _ = |c| ^ 21 / (Nat.factorial 21 : ℝ) * (49 / 48) := h49
    _ ≤ |c| ^ 21 / (Nat.factorial 21 : ℝ) * 2 := by nlinarith [ht]

theorem sin_approx_of_reduced (u c : ℝ) (k : ℤ) :
    |Real.sin u - Real.sin c| ≤ |u - 2 * Real.pi * (k : ℝ) - c| := by
  have hper : Real.sin (u - (k : ℝ) * (2 * Real.pi)) = Real.sin u :=
    Real.sin_sub_int_mul_two_pi u k
  calc |Real.sin u - Real.sin c|
      = |Real.sin (u - (k : ℝ) * (2 * Real.pi)) - Real.sin c| := by rw [hper]
    _ = |2 * Real.sin ((u - (k : ℝ) * (2 * Real.pi) - c) / 2) *
          Real.cos ((u - (k : ℝ) * (2 * Real.pi) + c) / 2)| := by rw [Real.sin_sub_sin]
    _ = 2 * |Real.sin ((u - (k : ℝ) * (2 * Real.pi) - c) / 2)| *
          |Real.cos ((u - (k : ℝ) * (2 * Real.pi) + c) / 2)| := by
        rw [abs_mul, abs_mul, abs_two]
    _ ≤ 2 * |(u - (k : ℝ) * (2 * Real.pi) - c) / 2| * 1 := by
        have h1 := Real.abs_sin_le_abs (x := (u - (k : ℝ) * (2 * Real.pi) - c) / 2)
        have h2 := Real.abs_cos_le_one ((u - (k : ℝ) * (2 * Real.pi) + c) / 2)
        have h3 : (0:ℝ) ≤ 2 * |Real.sin ((u - (k : ℝ) * (2 * Real.pi) - c) / 2)| := by
          positivity
        exact mul_le_mul (by nlinarith [h1]) h2 (abs_nonneg _) (by positivity)
    _ = |u - 2 * Real.pi * (k : ℝ) - c| := by
        rw [mul_one, abs_div, abs_two]
        rw [show u - (k : ℝ) * (2 * Real.pi) - c = u - 2 * Real.pi * (k : ℝ) - c from by ring]
        ring

theorem sum_Ico_le_geom (f : ℕ → ℝ) (J N : ℕ) (q : ℝ) (hq0 : 0 ≤ q) (hq1 : q < 1)
    (hpos : ∀ j, 0 ≤ f j) (hstep : ∀ j, J ≤ j → f (j + 1) ≤ q * f j) :
    ∑ j in Finset.Ico J N, f j ≤ f J / (1 - q) := by
  have hq1' : (0:ℝ) < 1 - q := by linarith
  have hpow : ∀ i : ℕ, f (J + i) ≤ f J * q ^ i := by
    intro i
    induction i with
    | zero => simp
    | succ i ih =>
      calc f (J + (i + 1)) = f ((J + i) + 1) := by rw [Nat.add_assoc]
        _ ≤ q * f (J + i) := hstep (J + i) (Nat.le_add_right J i)
        _ ≤ q * (f J * q ^ i) := mul_le_mul_of_nonneg_left ih hq0
        _ = f J * q ^ (i + 1) := by ring
  have hgeo : ∑ i in Finset.range (N - J), q ^ i ≤ 1 / (1 - q) := by
    rw [geom_sum_eq (ne_of_lt hq1)]
    have h1 : (q ^ (N - J) - 1) / (q - 1) = (1 - q ^ (N - J)) / (1 - q) := by
      rw [div_eq_div_iff (by linarith) (by linarith)]
      ring
    rw [h1]
    have h2 : (0:ℝ) ≤ q ^ (N - J) := pow_nonneg hq0 _
    rw [div_le_div_iff hq1' hq1']
    nlinarith
  calc ∑ j in Finset.Ico J N, f j = ∑ i in Finset.range (N - J), f (J + i) :=
      Finset.sum_Ico_eq_sum_range f J N
    _ ≤ ∑ i in Finset.range (N - J), f J * q ^ i :=
      Finset.sum_le_sum fun i _ => hpow i
    _ = f J * ∑ i in Finset.range (N - J), q ^ i := by rw [Finset.mul_sum]
    _ ≤ f J * (1 / (1 - q)) := mul_le_mul_of_nonneg_left hgeo (hpos J)
    _ = f J / (1 - q) := by ring

theorem besselI_one_le (n : ℕ) (hn : 12 ≤ n) :
    besselI n 1 ≤ 1.02 * (1 / 2) ^ n / (Nat.factorial n : ℝ) := by
  have hn' : (12:ℝ) ≤ (n : ℝ) := by exact_mod_cast hn
  have hr0 : (0:ℝ) ≤ 1 / (4 * ((n : ℝ) + 1)) := by positivity
  have hr1 : 1 / (4 * ((n : ℝ) + 1)) < 1 := by
    rw [div_lt_one (by positivity)]
    nlinarith
  have h := besselI_le n 0 1 (1 / (4 * ((n : ℝ) + 1))) (by norm_num) hr0 hr1 (by
    push_cast
    rw [div_mul_eq_mul_div, le_div_iff (by positivity)]
    ring_nf
    nlinarith)
  simp only [Finset.range_zero, Finset.sum_empty, zero_add, Nat.factorial_zero,
    Nat.cast_one, one_mul, Nat.zero_add, mul_zero, zero_mul] at h
  have hden : (0:ℝ) < 1 - 1 / (4 * ((n : ℝ) + 1)) := by
    rw [sub_pos]
    exact hr1
  have hp : (0:ℝ) ≤ ((1:ℝ) / 2) ^ n / (Nat.factorial n : ℝ) := by positivity
  have he : 1 / (4 * ((n : ℝ) + 1)) ≤ 1 / 52 := by
    rw [div_le_div_iff (by positivity) (by norm_num)]
    nlinarith
  have hbound : 1 / (1 - 1 / (4 * ((n : ℝ) + 1))) ≤ 1.02 := by
    rw [div_le_iff hden]
    nlinarith
  calc besselI n 1 ≤ ((1:ℝ) / 2) ^ n / (Nat.factorial n : ℝ) /
        (1 - 1 / (4 * ((n : ℝ) + 1))) := h
    _ = ((1:ℝ) / 2) ^ n / (Nat.factorial n : ℝ) *
        (1 / (1 - 1 / (4 * ((n : ℝ) + 1)))) := by ring
    _ ≤ ((1:ℝ) / 2) ^ n / (Nat.factorial n : ℝ) * 1.02 :=
        mul_le_mul_of_nonneg_left hbound hp
    _ = 1.02 * (1 / 2) ^ n / (Nat.factorial n : ℝ) := by ring

theorem besselI_four_le (n : ℕ) (hn : 17 ≤ n) :
    besselI n 4 ≤ 1.31 * 2 ^ n / (Nat.factorial n : ℝ) := by
  have hn' : (17:ℝ) ≤ (n : ℝ) := by exact_mod_cast hn
  have hr0 : (0:ℝ) ≤ 4 / ((n : ℝ) + 1) := by positivity
  have hr1 : 4 / ((n : ℝ) + 1) < 1 := by
    rw [div_lt_one (by positivity)]
    nlinarith
  have h := besselI_le n 0 4 (4 / ((n : ℝ) + 1)) (by norm_num) hr0 hr1 (by
    push_cast
    rw [div_mul_eq_mul_div, le_div_iff (by positivity)]
    ring_nf
    nlinarith)
  simp only [Finset.range_zero, Finset.sum_empty, zero_add, Nat.factorial_zero,
    Nat.cast_one, one_mul, Nat.zero_add, mul_zero, zero_mul] at h
  have hden : (0:ℝ) < 1 - 4 / ((n : ℝ) + 1) := by
    rw [sub_pos]
    exact hr1
  have hp : (0:ℝ) ≤ ((4:ℝ) / 2) ^ n / (Nat.factorial n : ℝ) := by positivity
  have he : 4 / ((n : ℝ) + 1) ≤ 4 / 18 := by
    rw [div_le_div_iff (by positivity) (by norm_num)]
    nlinarith
  have hbound : 1 / (1 - 4 / ((n : ℝ) + 1)) ≤ 1.31 := by
    rw [div_le_iff hden]
    nlinarith
  calc besselI n 4 ≤ ((4:ℝ) / 2) ^ n / (Nat.factorial n : ℝ) /
        (1 - 4 / ((n : ℝ) + 1)) := h
    _ = ((4:ℝ) / 2) ^ n / (Nat.factorial n : ℝ) *
        (1 / (1 - 4 / ((n : ℝ) + 1))) := by ring
    _ ≤ ((4:ℝ) / 2) ^ n / (Nat.factorial n : ℝ) * 1.31 :=
        mul_le_mul_of_nonneg_left hbound hp
    _ = 1.31 * 2 ^ n / (Nat.factorial n : ℝ) := by
        rw [show (4:ℝ) / 2 = 2 from by norm_num]
        ring

theorem mul_div_bounds_neg {A s : ℝ} (a1 a2 s1 s2 c : ℝ) (hc : 0 < c)
    (hA1 : a1 ≤ A) (hA2 : A ≤ a2) (ha : 0 ≤ a1) (hs1 : s1 ≤ s) (hs2 : s ≤ s2)
    (hs2n : s2 ≤ 0) :
    a2 * s1 / c ≤ A * s / c ∧ A * s / c ≤ a1 * s2 / c := by
  have hA0 : 0 ≤ A := le_trans ha hA1
  have hs10 : s1 ≤ 0 := le_trans (le_trans hs1 hs2) hs2n
  constructor
  · rw [div_le_div_iff hc hc]
    have h1 : a2 * s1 ≤ A * s1 := mul_le_mul_of_nonpos_right hA2 hs10
    have h2 : A * s1 ≤ A * s := mul_le_mul_of_nonneg_left hs1 hA0
    nlinarith
  · rw [div_le_div_iff hc hc]
    have h1 : A * s ≤ A * s2 := mul_le_mul_of_nonneg_left hs2 hA0
    have h2 : A * s2 ≤ a1 * s2 := mul_le_mul_of_nonpos_right hA1 hs2n
    nlinarith

theorem mul_div_bounds_pos {A s : ℝ} (a1 a2 s1 s2 c : ℝ) (hc : 0 < c)
    (hA1 : a1 ≤ A) (hA2 : A ≤ a2) (ha : 0 ≤ a1) (hs1 : s1 ≤ s) (hs2 : s ≤ s2)
    (hs1p : 0 ≤ s1) :
    a1 * s1 / c ≤ A * s / c ∧ A * s / c ≤ a2 * s2 / c := by
  have hA0 : 0 ≤ A := le_trans ha hA1
  have hs0 : 0 ≤ s := le_trans hs1p hs1
  constructor
  · rw [div_le_div_iff hc hc]
    have h1 : a1 * s1 ≤ A * s1 := mul_le_mul_of_nonneg_right hA1 hs1p
    have h2 : A * s1 ≤ A * s := mul_le_mul_of_nonneg_left hs1 hA0
    nlinarith
  · rw [div_le_div_iff hc hc]
    have h1 : A * s ≤ a2 * s2 := mul_le_mul hA2 hs2 hs0 (le_trans hA0 hA2)
    nlinarith

theorem div_bounds_neg {a b : ℝ} (a1 a2 b1 b2 : ℝ) (ha1 : a1 ≤ a) (ha2 : a ≤ a2)
    (hb1 : b1 ≤ b) (hb2 : b ≤ b2) (hb1p : 0 < b1) (ha2n : a2 ≤ 0) :
    a1 / b1 ≤ a / b ∧ a / b ≤ a2 / b2 := by
  have hb : 0 < b := lt_of_lt_of_le hb1p hb1
  have hb2p : 0 < b2 := lt_of_lt_of_le hb hb2
  have ha1n : a1 ≤ 0 := le_trans (le_trans ha1 ha2) ha2n
  constructor
  · rw [div_le_div_iff hb1p hb]
    have h1 : a1 * b ≤ a1 * b1 := mul_le_mul_of_nonpos_left hb1 ha1n
    have h2 : a1 * b1 ≤ a * b1 := mul_le_mul_of_nonneg_right ha1 (le_of_lt hb1p)
    linarith
  · rw [div_le_div_iff hb hb2p]
    have h1 : a * b2 ≤ a2 * b2 := mul_le_mul_of_nonneg_right ha2 (le_of_lt hb2p)
    have h2 : a2 * b2 ≤ a2 * b := mul_le_mul_of_nonpos_left hb2 ha2n
    linarith

theorem div_bounds_pos {a b : ℝ} (a1 a2 b1 b2 : ℝ) (ha1 : a1 ≤ a) (ha2 : a ≤ a2)
    (hb1 : b1 ≤ b) (hb2 : b ≤ b2) (hb1p : 0 < b1) (ha1p : 0 ≤ a1) :
    a1 / b2 ≤ a / b ∧ a / b ≤ a2 / b1 := by
  have hb : 0 < b := lt_of_lt_of_le hb1p hb1
  have hb2p : 0 < b2 := lt_of_lt_of_le hb hb2
  have ha0 : 0 ≤ a := le_trans ha1p ha1
  constructor
  · rw [div_le_div_iff hb2p hb]
    have h1 : a1 * b ≤ a * b := mul_le_mul_of_nonneg_right ha1 (le_of_lt hb)
    have h2 : a * b ≤ a * b2 := mul_le_mul_of_nonneg_left hb2 ha0
    linarith
  · rw [div_le_div_iff hb hb1p]
    have h1 : a * b1 ≤ a * b := mul_le_mul_of_nonneg_left hb1 ha0
    have h2 : a * b ≤ a2 * b := mul_le_mul_of_nonneg_right ha2 (le_of_lt hb)
    linarith


theorem besselI_0_1_enc :
    (633032938875999 / 500000000000000 : ℝ) ≤ besselI 0 1 ∧ besselI 0 1 ≤ (1266065877752009 / 1000000000000000 : ℝ) := by
  constructor
  · refine le_trans ?_ (besselI_ge 0 8 1 (by norm_num))
    simp only [Finset.sum_range_succ, Finset.sum_range_zero]
    norm_num [Nat.factorial]
  · refine le_trans (besselI_le 0 8 1 (1 / 100) (by norm_num) (by norm_num)
      (by norm_num) (by push_cast; norm_num)) ?_
    simp only [Finset.sum_range_succ, Finset.sum_range_zero]
    norm_num [Nat.factorial]

theorem besselI_1_1_enc :
    (141289775998121 / 250000000000000 : ℝ) ≤ besselI 1 1 ∧ besselI 1 1 ≤ (282579551996243 / 500000000000000 : ℝ) := by
  constructor
  · refine le_trans ?_ (besselI_ge 1 8 1 (by norm_num))
    simp only [Finset.sum_range_succ, Finset.sum_range_zero]
    norm_num [Nat.factorial]
  · refine le_trans (besselI_le 1 8 1 (1 / 100) (by norm_num) (by norm_num)
      (by norm_num) (by push_cast; norm_num)) ?_
    simp only [Finset.sum_range_succ, Finset.sum_range_zero]
    norm_num [Nat.factorial]

theorem besselI_2_1_enc :
    (67873834883519 / 500000000000000 : ℝ) ≤ besselI 2 1 ∧ besselI 2 1 ≤ (135747669767039 / 1000000000000000 : ℝ) := by
  constructor
  · refine le_trans ?_ (besselI_ge 2 8 1 (by norm_num))
    simp only [Finset.sum_range_succ, Finset.sum_range_zero]
    norm_num [Nat.factorial]
  · refine le_trans (besselI_le 2 8 1 (1 / 100) (by norm_num) (by norm_num)
      (by norm_num) (by push_cast; norm_num)) ?_
    simp only [Finset.sum_range_succ, Finset.sum_range_zero]
    norm_num [Nat.factorial]

theorem besselI_3_1_enc :
    (22168424924331 / 1000000000000000 : ℝ) ≤ besselI 3 1 ∧ besselI 3 1 ≤ (5542106231083 / 250000000000000 : ℝ) := by
  constructor
  · refine le_trans ?_ (besselI_ge 3 8 1 (by norm_num))
    simp only [Finset.sum_range_succ, Finset.sum_range_zero]
    norm_num [Nat.factorial]
  · refine le_trans (besselI_le 3 8 1 (1 / 100) (by norm_num) (by norm_num)
      (by norm_num) (by push_cast; norm_num)) ?_
    simp only [Finset.sum_range_succ, Finset.sum_range_zero]
    norm_num [Nat.factorial]

theorem besselI_4_1_enc :
    (1368560110523 / 500000000000000 : ℝ) ≤ besselI 4 1 ∧ besselI 4 1 ≤ (2737120221047 / 1000000000000000 : ℝ) := by
  constructor
  · refine le_trans ?_ (besselI_ge 4 8 1 (by norm_num))
    simp only [Finset.sum_range_succ, Finset.sum_range_zero]
    norm_num [Nat.factorial]
  · refine le_trans (besselI_le 4 8 1 (1 / 100) (by norm_num) (by norm_num)
      (by norm_num) (by push_cast; norm_num)) ?_
    simp only [Finset.sum_range_succ, Finset.sum_range_zero]
    norm_num [Nat.factorial]

theorem besselI_5_1_enc :
    (67865788989 / 250000000000000 : ℝ) ≤ besselI 5 1 ∧ besselI 5 1 ≤ (271463155957 / 1000000000000000 : ℝ) := by
  constructor
  · refine le_trans ?_ (besselI_ge 5 8 1 (by norm_num))
    simp only [Finset.sum_range_succ, Finset.sum_range_zero]
    norm_num [Nat.factorial]
  · refine le_trans (besselI_le 5 8 1 (1 / 100) (by norm_num) (by norm_num)
      (by norm_num) (by push_cast; norm_num)) ?_
    simp only [Finset.sum_range_succ, Finset.sum_range_zero]
    norm_num [Nat.factorial]

theorem besselI_6_1_enc :
    (22488661477 / 1000000000000000 : ℝ) ≤ besselI 6 1 ∧ besselI 6 1 ≤ (11244330739 / 500000000000000 : ℝ) := by
  constructor
  · refine le_trans ?_ (besselI_ge 6 8 1 (by norm_num))
    simp only [Finset.sum_range_succ, Finset.sum_range_zero]
    norm_num [Nat.factorial]
  · refine le_trans (besselI_le 6 8 1 (1 / 100) (by norm_num) (by norm_num)
      (by norm_num) (by push_cast; norm_num)) ?_
    simp only [Finset.sum_range_succ, Finset.sum_range_zero]
    norm_num [Nat.factorial]

theorem besselI_7_1_enc :
    (1599218231 / 1000000000000000 : ℝ) ≤ besselI 7 1 ∧ besselI 7 1 ≤ (199902279 / 125000000000000 : ℝ) := by
  constructor
  · refine le_trans ?_ (besselI_ge 7 8 1 (by norm_num))
    simp only [Finset.sum_range_succ, Finset.sum_range_zero]
    norm_num [Nat.factorial]
  · refine le_trans (besselI_le 7 8 1 (1 / 100) (by norm_num) (by norm_num)
      (by norm_num) (by push_cast; norm_num)) ?_
    simp only [Finset.sum_range_succ, Finset.sum_range_zero]
    norm_num [Nat.factorial]

theorem besselI_8_1_enc :
    (622539 / 6250000000000 : ℝ) ≤ besselI 8 1 ∧ besselI 8 1 ≤ (99606241 / 1000000000000000 : ℝ) := by
  constructor
  · refine le_trans ?_ (besselI_ge 8 8 1 (by norm_num))
    simp only [Finset.sum_range_succ, Finset.sum_range_zero]
    norm_num [Nat.factorial]
  · refine le_trans (besselI_le 8 8 1 (1 / 100) (by norm_num) (by norm_num)
      (by norm_num) (by push_cast; norm_num)) ?_
    simp only [Finset.sum_range_succ, Finset.sum_range_zero]
    norm_num [Nat.factorial]

theorem besselI_9_1_enc :
    (1103677 / 200000000000000 : ℝ) ≤ besselI 9 1 ∧ besselI 9 1 ≤ (2759193 / 500000000000000 : ℝ) := by
  constructor
  · refine le_trans ?_ (besselI_ge 9 8 1 (by norm_num))
    simp only [Finset.sum_range_succ, Finset.sum_range_zero]
    norm_num [Nat.factorial]
  · refine le_trans (besselI_le 9 8 1 (1 / 100) (by norm_num) (by norm_num)
      (by norm_num) (by push_cast; norm_num)) ?_
    simp only [Finset.sum_range_succ, Finset.sum_range_zero]
    norm_num [Nat.factorial]

theorem besselI_10_1_enc :
    (137647 / 500000000000000 : ℝ) ≤ besselI 10 1 ∧ besselI 10 1 ≤ (55059 / 200000000000000 : ℝ) := by
  constructor
  · refine le_trans ?_ (besselI_ge 10 8 1 (by norm_num))
    simp only [Finset.sum_range_succ, Finset.sum_range_zero]
    norm_num [Nat.factorial]
  · refine le_trans (besselI_le 10 8 1 (1 / 100) (by norm_num) (by norm_num)
      (by norm_num) (by push_cast; norm_num)) ?_
    simp only [Finset.sum_range_succ, Finset.sum_range_zero]
    norm_num [Nat.factorial]

theorem besselI_11_1_enc :
    (12489 / 1000000000000000 : ℝ) ≤ besselI 11 1 ∧ besselI 11 1 ≤ (1249 / 100000000000000 : ℝ) := by
  constructor
  · refine le_trans ?_ (besselI_ge 11 8 1 (by norm_num))
    simp only [Finset.sum_range_succ, Finset.sum_range_zero]
    norm_num [Nat.factorial]
  · refine le_trans (besselI_le 11 8 1 (1 / 100) (by norm_num) (by norm_num)
      (by norm_num) (by push_cast; norm_num)) ?_
    simp only [Finset.sum_range_succ, Finset.sum_range_zero]
    norm_num [Nat.factorial]

theorem besselI_12_1_enc :
    (519 / 1000000000000000 : ℝ) ≤ besselI 12 1 ∧ besselI 12 1 ≤ (13 / 25000000000000 : ℝ) := by
  constructor
  · refine le_trans ?_ (besselI_ge 12 8 1 (by norm_num))
    simp only [Finset.sum_range_succ, Finset.sum_range_zero]
    norm_num [Nat.factorial]
  · refine le_trans (besselI_le 12 8 1 (1 / 100) (by norm_num) (by norm_num)
      (by norm_num) (by push_cast; norm_num)) ?_
    simp only [Finset.sum_range_succ, Finset.sum_range_zero]
    norm_num [Nat.factorial]

theorem besselI_0_4_enc :
    (1130192195213633 / 100000000000000 : ℝ) ≤ besselI 0 4 ∧ besselI 0 4 ≤ (11301921952136331 / 1000000000000000 : ℝ) := by
  constructor
  · refine le_trans ?_ (besselI_ge 0 16 4 (by norm_num))
    simp only [Finset.sum_range_succ, Finset.sum_range_zero]
    norm_num [Nat.factorial]
  · refine le_trans (besselI_le 0 16 4 (1 / 50) (by norm_num) (by norm_num)
      (by norm_num) (by push_cast; norm_num)) ?_
    simp only [Finset.sum_range_succ, Finset.sum_range_zero]
    norm_num [Nat.factorial]

theorem besselI_1_4_enc :
    (9759465153704449 / 1000000000000000 : ℝ) ≤ besselI 1 4 ∧ besselI 1 4 ≤ (195189303074089 / 20000000000000 : ℝ) := by
  constructor
  · refine le_trans ?_ (besselI_ge 1 16 4 (by norm_num))
    simp only [Finset.sum_range_succ, Finset.sum_range_zero]
    norm_num [Nat.factorial]
  · refine le_trans (besselI_le 1 16 4 (1 / 50) (by norm_num) (by norm_num)
      (by norm_num) (by push_cast; norm_num)) ?_
    simp only [Finset.sum_range_succ, Finset.sum_range_zero]
    norm_num [Nat.factorial]

theorem besselI_2_4_enc :
    (1284437875056821 / 200000000000000 : ℝ) ≤ besselI 2 4 ∧ besselI 2 4 ≤ (3211094687642053 / 500000000000000 : ℝ) := by
  constructor
  · refine le_trans ?_ (besselI_ge 2 16 4 (by norm_num))
    simp only [Finset.sum_range_succ, Finset.sum_range_zero]
    norm_num [Nat.factorial]
  · refine le_trans (besselI_le 2 16 4 (1 / 50) (by norm_num) (by norm_num)
      (by norm_num) (by push_cast; norm_num)) ?_
    simp only [Finset.sum_range_succ, Finset.sum_range_zero]
    norm_num [Nat.factorial]

theorem besselI_3_4_enc :
    (417159472302543 / 125000000000000 : ℝ) ≤ besselI 3 4 ∧ besselI 3 4 ≤ (667455155684069 / 200000000000000 : ℝ) := by
  constructor
  · refine le_trans ?_ (besselI_ge 3 16 4 (by norm_num))
    simp only [Finset.sum_range_succ, Finset.sum_range_zero]
    norm_num [Nat.factorial]
  · refine le_trans (besselI_le 3 16 4 (1 / 50) (by norm_num) (by norm_num)
      (by norm_num) (by push_cast; norm_num)) ?_
    simp only [Finset.sum_range_succ, Finset.sum_range_zero]
    norm_num [Nat.factorial]

theorem besselI_4_4_enc :
    (354068926913397 / 250000000000000 : ℝ) ≤ besselI 4 4 ∧ besselI 4 4 ≤ (1416275707653589 / 1000000000000000 : ℝ) := by
  constructor
  · refine le_trans ?_ (besselI_ge 4 16 4 (by norm_num))
    simp only [Finset.sum_range_succ, Finset.sum_range_zero]
    norm_num [Nat.factorial]
  · refine le_trans (besselI_le 4 16 4 (1 / 50) (by norm_num) (by norm_num)
      (by norm_num) (by push_cast; norm_num)) ?_
    simp only [Finset.sum_range_succ, Finset.sum_range_zero]
    norm_num [Nat.factorial]

theorem besselI_5_4_enc :
    (252362181556583 / 500000000000000 : ℝ) ≤ besselI 5 4 ∧ besselI 5 4 ≤ (504724363113167 / 1000000000000000 : ℝ) := by
  constructor
  · refine le_trans ?_ (besselI_ge 5 16 4 (by norm_num))
    simp only [Finset.sum_range_succ, Finset.sum_range_zero]
    norm_num [Nat.factorial]
  · refine le_trans (besselI_le 5 16 4 (1 / 50) (by norm_num) (by norm_num)
      (by norm_num) (by push_cast; norm_num)) ?_
    simp only [Finset.sum_range_succ, Finset.sum_range_zero]
    norm_num [Nat.factorial]

theorem besselI_6_4_enc :
    (154464799870673 / 1000000000000000 : ℝ) ≤ besselI 6 4 ∧ besselI 6 4 ≤ (77232399935337 / 500000000000000 : ℝ) := by
  constructor
  · refine le_trans ?_ (besselI_ge 6 16 4 (by norm_num))
    simp only [Finset.sum_range_succ, Finset.sum_range_zero]
    norm_num [Nat.factorial]
  · refine le_trans (besselI_le 6 16 4 (1 / 50) (by norm_num) (by norm_num)
      (by norm_num) (by push_cast; norm_num)) ?_
    simp only [Finset.sum_range_succ, Finset.sum_range_zero]
    norm_num [Nat.factorial]

theorem besselI_7_4_enc :
    (41329963501147 / 1000000000000000 : ℝ) ≤ besselI 7 4 ∧ besselI 7 4 ≤ (10332490875287 / 250000000000000 : ℝ) := by
  constructor
  · refine le_trans ?_ (besselI_ge 7 16 4 (by norm_num))
    simp only [Finset.sum_range_succ, Finset.sum_range_zero]
    norm_num [Nat.factorial]
  · refine le_trans (besselI_le 7 16 4 (1 / 50) (by norm_num) (by norm_num)
      (by norm_num) (by push_cast; norm_num)) ?_
    simp only [Finset.sum_range_succ, Finset.sum_range_zero]
    norm_num [Nat.factorial]

theorem besselI_8_4_enc :
    (9809927616657 / 1000000000000000 : ℝ) ≤ besselI 8 4 ∧ besselI 8 4 ≤ (4904963808329 / 500000000000000 : ℝ) := by
  constructor
  · refine le_trans ?_ (besselI_ge 8 16 4 (by norm_num))
    simp only [Finset.sum_range_succ, Finset.sum_range_zero]
    norm_num [Nat.factorial]
  · refine le_trans (besselI_le 8 16 4 (1 / 50) (by norm_num) (by norm_num)
      (by norm_num) (by push_cast; norm_num)) ?_
    simp only [Finset.sum_range_succ, Finset.sum_range_zero]
    norm_num [Nat.factorial]

theorem besselI_9_4_enc :
    (2090253034517 / 1000000000000000 : ℝ) ≤ besselI 9 4 ∧ besselI 9 4 ≤ (1045126517259 / 500000000000000 : ℝ) := by
  constructor
  · refine le_trans ?_ (besselI_ge 9 16 4 (by norm_num))
    simp only [Finset.sum_range_succ, Finset.sum_range_zero]
    norm_num [Nat.factorial]
  · refine le_trans (besselI_le 9 16 4 (1 / 50) (by norm_num) (by norm_num)
      (by norm_num) (by push_cast; norm_num)) ?_
    simp only [Finset.sum_range_succ, Finset.sum_range_zero]
    norm_num [Nat.factorial]

theorem besselI_10_4_enc :
    (201894480663 / 500000000000000 : ℝ) ≤ besselI 10 4 ∧ besselI 10 4 ≤ (403788961327 / 1000000000000000 : ℝ) := by
  constructor
  · refine le_trans ?_ (besselI_ge 10 16 4 (by norm_num))
    simp only [Finset.sum_range_succ, Finset.sum_range_zero]
    norm_num [Nat.factorial]
  · refine le_trans (besselI_le 10 16 4 (1 / 50) (by norm_num) (by norm_num)
      (by norm_num) (by push_cast; norm_num)) ?_
    simp only [Finset.sum_range_succ, Finset.sum_range_zero]
    norm_num [Nat.factorial]

theorem besselI_11_4_enc :
    (71308227883 / 1000000000000000 : ℝ) ≤ besselI 11 4 ∧ besselI 11 4 ≤ (17827056971 / 250000000000000 : ℝ) := by
  constructor
  · refine le_trans ?_ (besselI_ge 11 16 4 (by norm_num))
    simp only [Finset.sum_range_succ, Finset.sum_range_zero]
    norm_num [Nat.factorial]
  · refine le_trans (besselI_le 11 16 4 (1 / 50) (by norm_num) (by norm_num)
      (by norm_num) (by push_cast; norm_num)) ?_
    simp only [Finset.sum_range_succ, Finset.sum_range_zero]
    norm_num [Nat.factorial]

theorem besselI_12_4_enc :
    (11593707969 / 1000000000000000 : ℝ) ≤ besselI 12 4 ∧ besselI 12 4 ≤ (1159370797 / 100000000000000 : ℝ) := by
  constructor
  · refine le_trans ?_ (besselI_ge 12 16 4 (by norm_num))
    simp only [Finset.sum_range_succ, Finset.sum_range_zero]
    norm_num [Nat.factorial]
  · refine le_trans (besselI_le 12 16 4 (1 / 50) (by norm_num) (by norm_num)
      (by norm_num) (by push_cast; norm_num)) ?_
    simp only [Finset.sum_range_succ, Finset.sum_range_zero]
    norm_num [Nat.factorial]

theorem besselI_13_4_enc :
    (1745980067 / 1000000000000000 : ℝ) ≤ besselI 13 4 ∧ besselI 13 4 ≤ (436495017 / 250000000000000 : ℝ) := by
  constructor
  · refine le_trans ?_ (besselI_ge 13 16 4 (by norm_num))
    simp only [Finset.sum_range_succ, Finset.sum_range_zero]
    norm_num [Nat.factorial]
  · refine le_trans (besselI_le 13 16 4 (1 / 50) (by norm_num) (by norm_num)
      (by norm_num) (by push_cast; norm_num)) ?_
    simp only [Finset.sum_range_succ, Finset.sum_range_zero]
    norm_num [Nat.factorial]

theorem besselI_14_4_enc :
    (244837527 / 1000000000000000 : ℝ) ≤ besselI 14 4 ∧ besselI 14 4 ≤ (30604691 / 125000000000000 : ℝ) := by
  constructor
  · refine le_trans ?_ (besselI_ge 14 16 4 (by norm_num))
    simp only [Finset.sum_range_succ, Finset.sum_range_zero]
    norm_num [Nat.factorial]
  · refine le_trans (besselI_le 14 16 4 (1 / 50) (by norm_num) (by norm_num)
      (by norm_num) (by push_cast; norm_num)) ?_
    simp only [Finset.sum_range_succ, Finset.sum_range_zero]
    norm_num [Nat.factorial]

theorem besselI_15_4_enc :
    (16058687 / 500000000000000 : ℝ) ≤ besselI 15 4 ∧ besselI 15 4 ≤ (256939 / 8000000000000 : ℝ) := by
  constructor
  · refine le_trans ?_ (besselI_ge 15 16 4 (by norm_num))
    simp only [Finset.sum_range_succ, Finset.sum_range_zero]
    norm_num [Nat.factorial]
  · refine le_trans (besselI_le 15 16 4 (1 / 50) (by norm_num) (by norm_num)
      (by norm_num) (by push_cast; norm_num)) ?_
    simp only [Finset.sum_range_succ, Finset.sum_range_zero]
    norm_num [Nat.factorial]

theorem besselI_16_4_enc :
    (3957219 / 1000000000000000 : ℝ) ≤ besselI 16 4 ∧ besselI 16 4 ≤ (197861 / 50000000000000 : ℝ) := by
  constructor
  · refine le_trans ?_ (besselI_ge 16 16 4 (by norm_num))
    simp only [Finset.sum_range_succ, Finset.sum_range_zero]
    norm_num [Nat.factorial]
  · refine le_trans (besselI_le 16 16 4 (1 / 50) (by norm_num) (by norm_num)
      (by norm_num) (by push_cast; norm_num)) ?_
    simp only [Finset.sum_range_succ, Finset.sum_range_zero]
    norm_num [Nat.factorial]

theorem besselI_17_4_enc :
    (91923 / 200000000000000 : ℝ) ≤ besselI 17 4 ∧ besselI 17 4 ≤ (14363 / 31250000000000 : ℝ) := by
  constructor
  · refine le_trans ?_ (besselI_ge 17 16 4 (by norm_num))
    simp only [Finset.sum_range_succ, Finset.sum_range_zero]
    norm_num [Nat.factorial]
  · refine le_trans (besselI_le 17 16 4 (1 / 50) (by norm_num) (by norm_num)
      (by norm_num) (by push_cast; norm_num)) ?_
    simp only [Finset.sum_range_succ, Finset.sum_range_zero]
    norm_num [Nat.factorial]

theorem besselI_18_4_enc :
    (12621 / 250000000000000 : ℝ) ≤ besselI 18 4 ∧ besselI 18 4 ≤ (10097 / 200000000000000 : ℝ) := by
  constructor
  · refine le_trans ?_ (besselI_ge 18 16 4 (by norm_num))
    simp only [Finset.sum_range_succ, Finset.sum_range_zero]
    norm_num [Nat.factorial]
  · refine le_trans (besselI_le 18 16 4 (1 / 50) (by norm_num) (by norm_num)
      (by norm_num) (by push_cast; norm_num)) ?_
    simp only [Finset.sum_range_succ, Finset.sum_range_zero]
    norm_num [Nat.factorial]

theorem sin_enc_1 :
    (420735492403 / 500000000000 : ℝ) ≤ Real.sin 1 ∧ Real.sin 1 ≤ (841470984809 / 1000000000000 : ℝ) := by
  have htay := sin_taylor_10 1 (by rw [abs_le]; constructor <;> norm_num)
  have habs : |(1 : ℝ)| ^ 21 / (Nat.factorial 21 : ℝ) * 2 ≤ 1 / 1000000000000 := by
    rw [abs_of_nonneg (by norm_num : (0:ℝ) ≤ (1 : ℝ))]
    norm_num [Nat.factorial]
  have hPlo : (1682941969615793 / 2000000000000000 : ℝ) ≤ ∑ n in Finset.range 10,
      (-1 : ℝ) ^ n * (1 : ℝ) ^ (2 * n + 1) / (Nat.factorial (2 * n + 1) : ℝ) := by
    simp only [Finset.sum_range_succ, Finset.sum_range_zero]
    norm_num [Nat.factorial]
  have hPhi : (∑ n in Finset.range 10,
      (-1 : ℝ) ^ n * (1 : ℝ) ^ (2 * n + 1) / (Nat.factorial (2 * n + 1) : ℝ))
      ≤ (4207354924039483 / 5000000000000000 : ℝ) := by
    simp only [Finset.sum_range_succ, Finset.sum_range_zero]
    norm_num [Nat.factorial]
  rw [abs_le] at htay
  constructor <;> linarith [htay.1, htay.2]

theorem sin_enc_2 :
    (113662178353 / 125000000000 : ℝ) ≤ Real.sin 2 ∧ Real.sin 2 ≤ (909297426827 / 1000000000000 : ℝ) := by
  have htay := sin_taylor_10 2 (by rw [abs_le]; constructor <;> norm_num)
  have habs : |(2 : ℝ)| ^ 21 / (Nat.factorial 21 : ℝ) * 2 ≤ 1 / 1000000000000 := by
    rw [abs_of_nonneg (by norm_num : (0:ℝ) ≤ (2 : ℝ))]
    norm_num [Nat.factorial]
  have hPlo : (9092974268256409 / 10000000000000000 : ℝ) ≤ ∑ n in Finset.range 10,
      (-1 : ℝ) ^ n * (2 : ℝ) ^ (2 * n + 1) / (Nat.factorial (2 * n + 1) : ℝ) := by
    simp only [Finset.sum_range_succ, Finset.sum_range_zero]
    norm_num [Nat.factorial]
  have hPhi : (∑ n in Finset.range 10,
      (-1 : ℝ) ^ n * (2 : ℝ) ^ (2 * n + 1) / (Nat.factorial (2 * n + 1) : ℝ))
      ≤ (909297426825641 / 1000000000000000 : ℝ) := by
    simp only [Finset.sum_range_succ, Finset.sum_range_zero]
    norm_num [Nat.factorial]
  rw [abs_le] at htay
  constructor <;> linarith [htay.1, htay.2]

theorem sin_enc_3 :
    (17640000931 / 125000000000 : ℝ) ≤ Real.sin 3 ∧ Real.sin 3 ≤ (141120008269 / 1000000000000 : ℝ) := by
  have htay := sin_taylor_10 3 (by rw [abs_le]; constructor <;> norm_num)
  have habs : |(3 : ℝ)| ^ 21 / (Nat.factorial 21 : ℝ) * 2 ≤ 41 / 100000000000 := by
    rw [abs_of_nonneg (by norm_num : (0:ℝ) ≤ (3 : ℝ))]
    norm_num [Nat.factorial]
  have hPlo : (28224001571743 / 200000000000000 : ℝ) ≤ ∑ n in Finset.range 10,
      (-1 : ℝ) ^ n * (3 : ℝ) ^ (2 * n + 1) / (Nat.factorial (2 * n + 1) : ℝ) := by
    simp only [Finset.sum_range_succ, Finset.sum_range_zero]
    norm_num [Nat.factorial]
  have hPhi : (∑ n in Finset.range 10,
      (-1 : ℝ) ^ n * (3 : ℝ) ^ (2 * n + 1) / (Nat.factorial (2 * n + 1) : ℝ))
      ≤ (1411200078587151 / 10000000000000000 : ℝ) := by
    simp only [Finset.sum_range_succ, Finset.sum_range_zero]
    norm_num [Nat.factorial]
  rw [abs_le] at htay
  constructor <;> linarith [htay.1, htay.2]

theorem sin_enc_4 :
    (-(75680249541 / 100000000000) : ℝ) ≤ Real.sin 4 ∧ Real.sin 4 ≤ (-(151360499041 / 200000000000) : ℝ) := by
  have hred := sin_approx_of_reduced 4 ((-(228318530717959) / 100000000000000)) 1
  have hredval : |(4 : ℝ) - 2 * Real.pi * ((1 : ℤ) : ℝ) - (-(228318530717959) / 100000000000000)| ≤ 1 / 10000000000 := by
    have h1 := Real.pi_gt_d20
    have h2 := Real.pi_lt_d20
    rw [abs_le]
    push_cast
    constructor <;> linarith
  have htay := sin_taylor_10 ((-(228318530717959) / 100000000000000)) (by rw [abs_le]; constructor <;> norm_num)
  have habs : |((-(228318530717959) / 100000000000000) : ℝ)| ^ 21 / (Nat.factorial 21 : ℝ) * 2 ≤ 1 / 500000000000 := by
    rw [abs_of_nonpos (by norm_num : ((-(228318530717959) / 100000000000000) : ℝ) ≤ 0)]
    norm_num [Nat.factorial]
  have hPlo : (-(1513604990614541 / 2000000000000000) : ℝ) ≤ ∑ n in Finset.range 10,
      (-1 : ℝ) ^ n * ((-(228318530717959) / 100000000000000) : ℝ) ^ (2 * n + 1) / (Nat.factorial (2 * n + 1) : ℝ) := by
    simp only [Finset.sum_range_succ, Finset.sum_range_zero]
    norm_num [Nat.factorial]
  have hPhi : (∑ n in Finset.range 10,
      (-1 : ℝ) ^ n * ((-(228318530717959) / 100000000000000) : ℝ) ^ (2 * n + 1) / (Nat.factorial (2 * n + 1) : ℝ))
      ≤ (-(118250389891761 / 156250000000000) : ℝ) := by
    simp only [Finset.sum_range_succ, Finset.sum_range_zero]
    norm_num [Nat.factorial]
  rw [abs_le] at htay
  rw [abs_le] at hred
  constructor <;> linarith [htay.1, htay.2, hred.1, hred.2, hredval]

theorem sin_enc_5 :
    (-(191784854953 / 200000000000) : ℝ) ≤ Real.sin 5 ∧ Real.sin 5 ≤ (-(479462137281 / 500000000000) : ℝ) := by
  have hred := sin_approx_of_reduced 5 ((-(128318530717959) / 100000000000000)) 1
  have hredval : |(5 : ℝ) - 2 * Real.pi * ((1 : ℤ) : ℝ) - (-(128318530717959) / 100000000000000)| ≤ 1 / 10000000000 := by
    have h1 := Real.pi_gt_d20
    have h2 := Real.pi_lt_d20
    rw [abs_le]
    push_cast
    constructor <;> linarith
  have htay := sin_taylor_10 ((-(128318530717959) / 100000000000000)) (by rw [abs_le]; constructor <;> norm_num)
  have habs : |((-(128318530717959) / 100000000000000) : ℝ)| ^ 21 / (Nat.factorial 21 : ℝ) * 2 ≤ 1 / 1000000000000 := by
    rw [abs_of_nonpos (by norm_num : ((-(128318530717959) / 100000000000000) : ℝ) ≤ 0)]
    norm_num [Nat.factorial]
  have hPlo : (-(1917848549326279 / 2000000000000000) : ℝ) ≤ ∑ n in Finset.range 10,
      (-1 : ℝ) ^ n * ((-(128318530717959) / 100000000000000) : ℝ) ^ (2 * n + 1) / (Nat.factorial (2 * n + 1) : ℝ) := by
    simp only [Finset.sum_range_succ, Finset.sum_range_zero]
    norm_num [Nat.factorial]
  have hPhi : (∑ n in Finset.range 10,
      (-1 : ℝ) ^ n * ((-(128318530717959) / 100000000000000) : ℝ) ^ (2 * n + 1) / (Nat.factorial (2 * n + 1) : ℝ))
      ≤ (-(4794621373315697 / 5000000000000000) : ℝ) := by
    simp only [Finset.sum_range_succ, Finset.sum_range_zero]
    norm_num [Nat.factorial]
  rw [abs_le] at htay
  rw [abs_le] at hred
  constructor <;> linarith [htay.1, htay.2, hred.1, hred.2, hredval]

theorem sin_enc_6 :
    (-(2794154983 / 10000000000) : ℝ) ≤ Real.sin 6 ∧ Real.sin 6 ≤ (-(279415498097 / 1000000000000) : ℝ) := by
  have hred := sin_approx_of_reduced 6 ((-(28318530717959) / 100000000000000)) 1
  have hredval : |(6 : ℝ) - 2 * Real.pi * ((1 : ℤ) : ℝ) - (-(28318530717959) / 100000000000000)| ≤ 1 / 10000000000 := by
    have h1 := Real.pi_gt_d20
    have h2 := Real.pi_lt_d20
    rw [abs_le]
    push_cast
    constructor <;> linarith
  have htay := sin_taylor_10 ((-(28318530717959) / 100000000000000)) (by rw [abs_le]; constructor <;> norm_num)
  have habs : |((-(28318530717959) / 100000000000000) : ℝ)| ^ 21 / (Nat.factorial 21 : ℝ) * 2 ≤ 1 / 1000000000000 := by
    rw [abs_of_nonpos (by norm_num : ((-(28318530717959) / 100000000000000) : ℝ) ≤ 0)]
    norm_num [Nat.factorial]
  have hPlo : (-(2794154981989293 / 10000000000000000) : ℝ) ≤ ∑ n in Finset.range 10,
      (-1 : ℝ) ^ n * ((-(28318530717959) / 100000000000000) : ℝ) ^ (2 * n + 1) / (Nat.factorial (2 * n + 1) : ℝ) := by
    simp only [Finset.sum_range_succ, Finset.sum_range_zero]
    norm_num [Nat.factorial]
  have hPhi : (∑ n in Finset.range 10,
      (-1 : ℝ) ^ n * ((-(28318530717959) / 100000000000000) : ℝ) ^ (2 * n + 1) / (Nat.factorial (2 * n + 1) : ℝ))
      ≤ (-(698538745497323 / 2500000000000000) : ℝ) := by
    simp only [Finset.sum_range_succ, Finset.sum_range_zero]
    norm_num [Nat.factorial]
  rw [abs_le] at htay
  rw [abs_le] at hred
  constructor <;> linarith [htay.1, htay.2, hred.1, hred.2, hredval]

theorem sin_enc_7 :
    (656986598617 / 1000000000000 : ℝ) ≤ Real.sin 7 ∧ Real.sin 7 ≤ (32849329941 / 50000000000 : ℝ) := by
  have hred := sin_approx_of_reduced 7 ((71681469282041 / 100000000000000)) 1
  have hredval : |(7 : ℝ) - 2 * Real.pi * ((1 : ℤ) : ℝ) - (71681469282041 / 100000000000000)| ≤ 1 / 10000000000 := by
    have h1 := Real.pi_gt_d20
    have h2 := Real.pi_lt_d20
    rw [abs_le]
    push_cast
    constructor <;> linarith
  have htay := sin_taylor_10 ((71681469282041 / 100000000000000)) (by rw [abs_le]; constructor <;> norm_num)
  have habs : |((71681469282041 / 100000000000000) : ℝ)| ^ 21 / (Nat.factorial 21 : ℝ) * 2 ≤ 1 / 1000000000000 := by
    rw [abs_of_nonneg (by norm_num : (0:ℝ) ≤ (71681469282041 / 100000000000000))]
    norm_num [Nat.factorial]
  have hPlo : (821233248398483 / 1250000000000000 : ℝ) ≤ ∑ n in Finset.range 10,
      (-1 : ℝ) ^ n * ((71681469282041 / 100000000000000) : ℝ) ^ (2 * n + 1) / (Nat.factorial (2 * n + 1) : ℝ) := by
    simp only [Finset.sum_range_succ, Finset.sum_range_zero]
    norm_num [Nat.factorial]
  have hPhi : (∑ n in Finset.range 10,
      (-1 : ℝ) ^ n * ((71681469282041 / 100000000000000) : ℝ) ^ (2 * n + 1) / (Nat.factorial (2 * n + 1) : ℝ))
      ≤ (1313973197437573 / 2000000000000000 : ℝ) := by
    simp only [Finset.sum_range_succ, Finset.sum_range_zero]
    norm_num [Nat.factorial]
  rw [abs_le] at htay
  rw [abs_le] at hred
  constructor <;> linarith [htay.1, htay.2, hred.1, hred.2, hredval]

theorem sin_enc_8 :
    (494679123261 / 500000000000 : ℝ) ≤ Real.sin 8 ∧ Real.sin 8 ≤ (39574329869 / 40000000000 : ℝ) := by
  have hred := sin_approx_of_reduced 8 ((171681469282041 / 100000000000000)) 1
  have hredval : |(8 : ℝ) - 2 * Real.pi * ((1 : ℤ) : ℝ) - (171681469282041 / 100000000000000)| ≤ 1 / 10000000000 := by
    have h1 := Real.pi_gt_d20
    have h2 := Real.pi_lt_d20
    rw [abs_le]
    push_cast
    constructor <;> linarith
  have htay := sin_taylor_10 ((171681469282041 / 100000000000000)) (by rw [abs_le]; constructor <;> norm_num)
  have habs : |((171681469282041 / 100000000000000) : ℝ)| ^ 21 / (Nat.factorial 21 : ℝ) * 2 ≤ 1 / 1000000000000 := by
    rw [abs_of_nonneg (by norm_num : (0:ℝ) ≤ (171681469282041 / 100000000000000))]
    norm_num [Nat.factorial]
  have hPlo : (4946791233116903 / 5000000000000000 : ℝ) ≤ ∑ n in Finset.range 10,
      (-1 : ℝ) ^ n * ((171681469282041 / 100000000000000) : ℝ) ^ (2 * n + 1) / (Nat.factorial (2 * n + 1) : ℝ) := by
    simp only [Finset.sum_range_succ, Finset.sum_range_zero]
    norm_num [Nat.factorial]
  have hPhi : (∑ n in Finset.range 10,
      (-1 : ℝ) ^ n * ((171681469282041 / 100000000000000) : ℝ) ^ (2 * n + 1) / (Nat.factorial (2 * n + 1) : ℝ))
      ≤ (9893582466233807 / 10000000000000000 : ℝ) := by
    simp only [Finset.sum_range_succ, Finset.sum_range_zero]
    norm_num [Nat.factorial]
  rw [abs_le] at htay
  rw [abs_le] at hred
  constructor <;> linarith [htay.1, htay.2, hred.1, hred.2, hredval]

theorem sin_enc_9 :
    (51514810633 / 125000000000 : ℝ) ≤ Real.sin 9 ∧ Real.sin 9 ≤ (412118485369 / 1000000000000 : ℝ) := by
  have hred := sin_approx_of_reduced 9 ((271681469282041 / 100000000000000)) 1
  have hredval : |(9 : ℝ) - 2 * Real.pi * ((1 : ℤ) : ℝ) - (271681469282041 / 100000000000000)| ≤ 1 / 10000000000 := by
    have h1 := Real.pi_gt_d20
    have h2 := Real.pi_lt_d20
    rw [abs_le]
    push_cast
    constructor <;> linarith
  have htay := sin_taylor_10 ((271681469282041 / 100000000000000)) (by rw [abs_le]; constructor <;> norm_num)
  have habs : |((271681469282041 / 100000000000000) : ℝ)| ^ 21 / (Nat.factorial 21 : ℝ) * 2 ≤ 13 / 250000000000 := by
    rw [abs_of_nonneg (by norm_num : (0:ℝ) ≤ (271681469282041 / 100000000000000))]
    norm_num [Nat.factorial]
  have hPlo : (2060592426083027 / 5000000000000000 : ℝ) ≤ ∑ n in Finset.range 10,
      (-1 : ℝ) ^ n * ((271681469282041 / 100000000000000) : ℝ) ^ (2 * n + 1) / (Nat.factorial (2 * n + 1) : ℝ) := by
    simp only [Finset.sum_range_succ, Finset.sum_range_zero]
    norm_num [Nat.factorial]
  have hPhi : (∑ n in Finset.range 10,
      (-1 : ℝ) ^ n * ((271681469282041 / 100000000000000) : ℝ) ^ (2 * n + 1) / (Nat.factorial (2 * n + 1) : ℝ))
      ≤ (824236970433211 / 2000000000000000 : ℝ) := by
    simp only [Finset.sum_range_succ, Finset.sum_range_zero]
    norm_num [Nat.factorial]
  rw [abs_le] at htay
  rw [abs_le] at hred
  constructor <;> linarith [htay.1, htay.2, hred.1, hred.2, hredval]

theorem sin_enc_10 :
    (-(272010555499 / 500000000000) : ℝ) ≤ Real.sin 10 ∧ Real.sin 10 ≤ (-(108804222153 / 200000000000) : ℝ) := by
  have hred := sin_approx_of_reduced 10 ((-(256637061435917) / 100000000000000)) 2
  have hredval : |(10 : ℝ) - 2 * Real.pi * ((2 : ℤ) : ℝ) - (-(256637061435917) / 100000000000000)| ≤ 1 / 10000000000 := by
    have h1 := Real.pi_gt_d20
    have h2 := Real.pi_lt_d20
    rw [abs_le]
    push_cast
    constructor <;> linarith
  have htay := sin_taylor_10 ((-(256637061435917) / 100000000000000)) (by rw [abs_le]; constructor <;> norm_num)
  have habs : |((-(256637061435917) / 100000000000000) : ℝ)| ^ 21 / (Nat.factorial 21 : ℝ) * 2 ≤ 1 / 62500000000 := by
    rw [abs_of_nonpos (by norm_num : ((-(256637061435917) / 100000000000000) : ℝ) ≤ 0)]
    norm_num [Nat.factorial]
  have hPlo : (-(2720105554408781 / 5000000000000000) : ℝ) ≤ ∑ n in Finset.range 10,
      (-1 : ℝ) ^ n * ((-(256637061435917) / 100000000000000) : ℝ) ^ (2 * n + 1) / (Nat.factorial (2 * n + 1) : ℝ) := by
    simp only [Finset.sum_range_succ, Finset.sum_range_zero]
    norm_num [Nat.factorial]
  have hPhi : (∑ n in Finset.range 10,
      (-1 : ℝ) ^ n * ((-(256637061435917) / 100000000000000) : ℝ) ^ (2 * n + 1) / (Nat.factorial (2 * n + 1) : ℝ))
      ≤ (-(5440211108817561 / 10000000000000000) : ℝ) := by
    simp only [Finset.sum_range_succ, Finset.sum_range_zero]
    norm_num [Nat.factorial]
  rw [abs_le] at htay
  rw [abs_le] at hred
  constructor <;> linarith [htay.1, htay.2, hred.1, hred.2, hredval]

theorem sin_enc_11 :
    (-(249997551663 / 250000000000) : ℝ) ≤ Real.sin 11 ∧ Real.sin 11 ≤ (-(999990206449 / 1000000000000) : ℝ) := by
  have hred := sin_approx_of_reduced 11 ((-(156637061435917) / 100000000000000)) 2
  have hredval : |(11 : ℝ) - 2 * Real.pi * ((2 : ℤ) : ℝ) - (-(156637061435917) / 100000000000000)| ≤ 1 / 10000000000 := by
    have h1 := Real.pi_gt_d20
    have h2 := Real.pi_lt_d20
    rw [abs_le]
    push_cast
    constructor <;> linarith
  have htay := sin_taylor_10 ((-(156637061435917) / 100000000000000)) (by rw [abs_le]; constructor <;> norm_num)
  have habs : |((-(156637061435917) / 100000000000000) : ℝ)| ^ 21 / (Nat.factorial 21 : ℝ) * 2 ≤ 1 / 1000000000000 := by
    rw [abs_of_nonpos (by norm_num : ((-(156637061435917) / 100000000000000) : ℝ) ≤ 0)]
    norm_num [Nat.factorial]
  have hPlo : (-(9999902065507033 / 10000000000000000) : ℝ) ≤ ∑ n in Finset.range 10,
      (-1 : ℝ) ^ n * ((-(156637061435917) / 100000000000000) : ℝ) ^ (2 * n + 1) / (Nat.factorial (2 * n + 1) : ℝ) := by
    simp only [Finset.sum_range_succ, Finset.sum_range_zero]
    norm_num [Nat.factorial]
  have hPhi : (∑ n in Finset.range 10,
      (-1 : ℝ) ^ n * ((-(156637061435917) / 100000000000000) : ℝ) ^ (2 * n + 1) / (Nat.factorial (2 * n + 1) : ℝ))
      ≤ (-(1249987758188379 / 1250000000000000) : ℝ) := by
    simp only [Finset.sum_range_succ, Finset.sum_range_zero]
    norm_num [Nat.factorial]
  rw [abs_le] at htay
  rw [abs_le] at hred
  constructor <;> linarith [htay.1, htay.2, hred.1, hred.2, hredval]

theorem sin_enc_12 :
    (-(268286459051 / 500000000000) : ℝ) ≤ Real.sin 12 ∧ Real.sin 12 ≤ (-(536572917899 / 1000000000000) : ℝ) := by
  have hred := sin_approx_of_reduced 12 ((-(56637061435917) / 100000000000000)) 2
  have hredval : |(12 : ℝ) - 2 * Real.pi * ((2 : ℤ) : ℝ) - (-(56637061435917) / 100000000000000)| ≤ 1 / 10000000000 := by
    have h1 := Real.pi_gt_d20
    have h2 := Real.pi_lt_d20
    rw [abs_le]
    push_cast
    constructor <;> linarith
  have htay := sin_taylor_10 ((-(56637061435917) / 100000000000000)) (by rw [abs_le]; constructor <;> norm_num)
  have habs : |((-(56637061435917) / 100000000000000) : ℝ)| ^ 21 / (Nat.factorial 21 : ℝ) * 2 ≤ 1 / 1000000000000 := by
    rw [abs_of_nonpos (by norm_num : ((-(56637061435917) / 100000000000000) : ℝ) ≤ 0)]
    norm_num [Nat.factorial]
  have hPlo : (-(214629167200173 / 400000000000000) : ℝ) ≤ ∑ n in Finset.range 10,
      (-1 : ℝ) ^ n * ((-(56637061435917) / 100000000000000) : ℝ) ^ (2 * n + 1) / (Nat.factorial (2 * n + 1) : ℝ) := by
    simp only [Finset.sum_range_succ, Finset.sum_range_zero]
    norm_num [Nat.factorial]
  have hPhi : (∑ n in Finset.range 10,
      (-1 : ℝ) ^ n * ((-(56637061435917) / 100000000000000) : ℝ) ^ (2 * n + 1) / (Nat.factorial (2 * n + 1) : ℝ))
      ≤ (-(1341432295001081 / 2500000000000000) : ℝ) := by
    simp only [Finset.sum_range_succ, Finset.sum_range_zero]
    norm_num [Nat.factorial]
  rw [abs_le] at htay
  rw [abs_le] at hred
  constructor <;> linarith [htay.1, htay.2, hred.1, hred.2, hredval]

theorem sin_enc_13 :
    (16806681469 / 40000000000 : ℝ) ≤ Real.sin 13 ∧ Real.sin 13 ≤ (102579843 / 244140625 : ℝ) := by
  have hred := sin_approx_of_reduced 13 ((43362938564083 / 100000000000000)) 2
  have hredval : |(13 : ℝ) - 2 * Real.pi * ((2 : ℤ) : ℝ) - (43362938564083 / 100000000000000)| ≤ 1 / 10000000000 := by
    have h1 := Real.pi_gt_d20
    have h2 := Real.pi_lt_d20
    rw [abs_le]
    push_cast
    constructor <;> linarith
  have htay := sin_taylor_10 ((43362938564083 / 100000000000000)) (by rw [abs_le]; constructor <;> norm_num)
  have habs : |((43362938564083 / 100000000000000) : ℝ)| ^ 21 / (Nat.factorial 21 : ℝ) * 2 ≤ 1 / 1000000000000 := by
    rw [abs_of_nonneg (by norm_num : (0:ℝ) ≤ (43362938564083 / 100000000000000))]
    norm_num [Nat.factorial]
  have hPlo : (1050417592066609 / 2500000000000000 : ℝ) ≤ ∑ n in Finset.range 10,
      (-1 : ℝ) ^ n * ((43362938564083 / 100000000000000) : ℝ) ^ (2 * n + 1) / (Nat.factorial (2 * n + 1) : ℝ) := by
    simp only [Finset.sum_range_succ, Finset.sum_range_zero]
    norm_num [Nat.factorial]
  have hPhi : (∑ n in Finset.range 10,
      (-1 : ℝ) ^ n * ((43362938564083 / 100000000000000) : ℝ) ^ (2 * n + 1) / (Nat.factorial (2 * n + 1) : ℝ))
      ≤ (4201670368266437 / 10000000000000000 : ℝ) := by
    simp only [Finset.sum_range_succ, Finset.sum_range_zero]
    norm_num [Nat.factorial]
  rw [abs_le] at htay
  rw [abs_le] at hred
  constructor <;> linarith [htay.1, htay.2, hred.1, hred.2, hredval]

theorem sin_enc_14 :
    (990607355593 / 1000000000000 : ℝ) ≤ Real.sin 14 ∧ Real.sin 14 ≤ (247651838949 / 250000000000 : ℝ) := by
  have hred := sin_approx_of_reduced 14 ((143362938564083 / 100000000000000)) 2
  have hredval : |(14 : ℝ) - 2 * Real.pi * ((2 : ℤ) : ℝ) - (143362938564083 / 100000000000000)| ≤ 1 / 10000000000 := by
    have h1 := Real.pi_gt_d20
    have h2 := Real.pi_lt_d20
    rw [abs_le]
    push_cast
    constructor <;> linarith
  have htay := sin_taylor_10 ((143362938564083 / 100000000000000)) (by rw [abs_le]; constructor <;> norm_num)
  have habs : |((143362938564083 / 100000000000000) : ℝ)| ^ 21 / (Nat.factorial 21 : ℝ) * 2 ≤ 1 / 1000000000000 := by
    rw [abs_of_nonneg (by norm_num : (0:ℝ) ≤ (143362938564083 / 100000000000000))]
    norm_num [Nat.factorial]
  have hPlo : (4953036778474353 / 5000000000000000 : ℝ) ≤ ∑ n in Finset.range 10,
      (-1 : ℝ) ^ n * ((143362938564083 / 100000000000000) : ℝ) ^ (2 * n + 1) / (Nat.factorial (2 * n + 1) : ℝ) := by
    simp only [Finset.sum_range_succ, Finset.sum_range_zero]
    norm_num [Nat.factorial]
  have hPhi : (∑ n in Finset.range 10,
      (-1 : ℝ) ^ n * ((143362938564083 / 100000000000000) : ℝ) ^ (2 * n + 1) / (Nat.factorial (2 * n + 1) : ℝ))
      ≤ (9906073556948707 / 10000000000000000 : ℝ) := by
    simp only [Finset.sum_range_succ, Finset.sum_range_zero]
    norm_num [Nat.factorial]
  rw [abs_le] at htay
  rw [abs_le] at hred
  constructor <;> linarith [htay.1, htay.2, hred.1, hred.2, hredval]

theorem sin_enc_15 :
    (40642990003 / 62500000000 : ℝ) ≤ Real.sin 15 ∧ Real.sin 15 ≤ (650287840261 / 1000000000000 : ℝ) := by
  have hred := sin_approx_of_reduced 15 ((243362938564083 / 100000000000000)) 2
  have hredval : |(15 : ℝ) - 2 * Real.pi * ((2 : ℤ) : ℝ) - (243362938564083 / 100000000000000)| ≤ 1 / 10000000000 := by
    have h1 := Real.pi_gt_d20
    have h2 := Real.pi_lt_d20
    rw [abs_le]
    push_cast
    constructor <;> linarith
  have htay := sin_taylor_10 ((243362938564083 / 100000000000000)) (by rw [abs_le]; constructor <;> norm_num)
  have habs : |((243362938564083 / 100000000000000) : ℝ)| ^ 21 / (Nat.factorial 21 : ℝ) * 2 ≤ 3 / 500000000000 := by
    rw [abs_of_nonneg (by norm_num : (0:ℝ) ≤ (243362938564083 / 100000000000000))]
    norm_num [Nat.factorial]
  have hPlo : (3251439200773073 / 5000000000000000 : ℝ) ≤ ∑ n in Finset.range 10,
      (-1 : ℝ) ^ n * ((243362938564083 / 100000000000000) : ℝ) ^ (2 * n + 1) / (Nat.factorial (2 * n + 1) : ℝ) := by
    simp only [Finset.sum_range_succ, Finset.sum_range_zero]
    norm_num [Nat.factorial]
  have hPhi : (∑ n in Finset.range 10,
      (-1 : ℝ) ^ n * ((243362938564083 / 100000000000000) : ℝ) ^ (2 * n + 1) / (Nat.factorial (2 * n + 1) : ℝ))
      ≤ (6502878401546147 / 10000000000000000 : ℝ) := by
    simp only [Finset.sum_range_succ, Finset.sum_range_zero]
    norm_num [Nat.factorial]
  rw [abs_le] at htay
  rw [abs_le] at hred
  constructor <;> linarith [htay.1, htay.2, hred.1, hred.2, hredval]

theorem sin_enc_16 :
    (-(71975829209 / 250000000000) : ℝ) ≤ Real.sin 16 ∧ Real.sin 16 ≤ (-(287903316357 / 1000000000000) : ℝ) := by
  have hred := sin_approx_of_reduced 16 ((-(71238898038469) / 25000000000000)) 3
  have hredval : |(16 : ℝ) - 2 * Real.pi * ((3 : ℤ) : ℝ) - (-(71238898038469) / 25000000000000)| ≤ 1 / 10000000000 := by
    have h1 := Real.pi_gt_d20
    have h2 := Real.pi_lt_d20
    rw [abs_le]
    push_cast
    constructor <;> linarith
  have htay := sin_taylor_10 ((-(71238898038469) / 25000000000000)) (by rw [abs_le]; constructor <;> norm_num)
  have habs : |((-(71238898038469) / 25000000000000) : ℝ)| ^ 21 / (Nat.factorial 21 : ℝ) * 2 ≤ 139 / 1000000000000 := by
    rw [abs_of_nonpos (by norm_num : ((-(71238898038469) / 25000000000000) : ℝ) ≤ 0)]
    norm_num [Nat.factorial]
  have hPlo : (-(359879145745833 / 1250000000000000) : ℝ) ≤ ∑ n in Finset.range 10,
      (-1 : ℝ) ^ n * ((-(71238898038469) / 25000000000000) : ℝ) ^ (2 * n + 1) / (Nat.factorial (2 * n + 1) : ℝ) := by
    simp only [Finset.sum_range_succ, Finset.sum_range_zero]
    norm_num [Nat.factorial]
  have hPhi : (∑ n in Finset.range 10,
      (-1 : ℝ) ^ n * ((-(71238898038469) / 25000000000000) : ℝ) ^ (2 * n + 1) / (Nat.factorial (2 * n + 1) : ℝ))
      ≤ (-(2879033165966663 / 10000000000000000) : ℝ) := by
    simp only [Finset.sum_range_succ, Finset.sum_range_zero]
    norm_num [Nat.factorial]
  rw [abs_le] at htay
  rw [abs_le] at hred
  constructor <;> linarith [htay.1, htay.2, hred.1, hred.2, hredval]

theorem sin_enc_17 :
    (-(961397491981 / 1000000000000) : ℝ) ≤ Real.sin 17 ∧ Real.sin 17 ≤ (-(480698745889 / 500000000000) : ℝ) := by
  have hred := sin_approx_of_reduced 17 ((-(46238898038469) / 25000000000000)) 3
  have hredval : |(17 : ℝ) - 2 * Real.pi * ((3 : ℤ) : ℝ) - (-(46238898038469) / 25000000000000)| ≤ 1 / 10000000000 := by
    have h1 := Real.pi_gt_d20
    have h2 := Real.pi_lt_d20
    rw [abs_le]
    push_cast
    constructor <;> linarith
  have htay := sin_taylor_10 ((-(46238898038469) / 25000000000000)) (by rw [abs_le]; constructor <;> norm_num)
  have habs : |((-(46238898038469) / 25000000000000) : ℝ)| ^ 21 / (Nat.factorial 21 : ℝ) * 2 ≤ 1 / 1000000000000 := by
    rw [abs_of_nonpos (by norm_num : ((-(46238898038469) / 25000000000000) : ℝ) ≤ 0)]
    norm_num [Nat.factorial]
  have hPlo : (-(9613974918795489 / 10000000000000000) : ℝ) ≤ ∑ n in Finset.range 10,
      (-1 : ℝ) ^ n * ((-(46238898038469) / 25000000000000) : ℝ) ^ (2 * n + 1) / (Nat.factorial (2 * n + 1) : ℝ) := by
    simp only [Finset.sum_range_succ, Finset.sum_range_zero]
    norm_num [Nat.factorial]
  have hPhi : (∑ n in Finset.range 10,
      (-1 : ℝ) ^ n * ((-(46238898038469) / 25000000000000) : ℝ) ^ (2 * n + 1) / (Nat.factorial (2 * n + 1) : ℝ))
      ≤ (-(300436716212359 / 312500000000000) : ℝ) := by
    simp only [Finset.sum_range_succ, Finset.sum_range_zero]
    norm_num [Nat.factorial]
  rw [abs_le] at htay
  rw [abs_le] at hred
  constructor <;> linarith [htay.1, htay.2, hred.1, hred.2, hredval]

theorem sin_enc_18 :
    (-(750987246873 / 1000000000000) : ℝ) ≤ Real.sin 18 ∧ Real.sin 18 ≤ (-(75098724667 / 100000000000) : ℝ) := by
  have hred := sin_approx_of_reduced 18 ((-(21238898038469) / 25000000000000)) 3
  have hredval : |(18 : ℝ) - 2 * Real.pi * ((3 : ℤ) : ℝ) - (-(21238898038469) / 25000000000000)| ≤ 1 / 10000000000 := by
    have h1 := Real.pi_gt_d20
    have h2 := Real.pi_lt_d20
    rw [abs_le]
    push_cast
    constructor <;> linarith
  have htay := sin_taylor_10 ((-(21238898038469) / 25000000000000)) (by rw [abs_le]; constructor <;> norm_num)
  have habs : |((-(21238898038469) / 25000000000000) : ℝ)| ^ 21 / (Nat.factorial 21 : ℝ) * 2 ≤ 1 / 1000000000000 := by
    rw [abs_of_nonpos (by norm_num : ((-(21238898038469) / 25000000000000) : ℝ) ≤ 0)]
    norm_num [Nat.factorial]
  have hPlo : (-(1501974493543353 / 2000000000000000) : ℝ) ≤ ∑ n in Finset.range 10,
      (-1 : ℝ) ^ n * ((-(21238898038469) / 25000000000000) : ℝ) ^ (2 * n + 1) / (Nat.factorial (2 * n + 1) : ℝ) := by
    simp only [Finset.sum_range_succ, Finset.sum_range_zero]
    norm_num [Nat.factorial]
  have hPhi : (∑ n in Finset.range 10,
      (-1 : ℝ) ^ n * ((-(21238898038469) / 25000000000000) : ℝ) ^ (2 * n + 1) / (Nat.factorial (2 * n + 1) : ℝ))
      ≤ (-(1877468116929191 / 2500000000000000) : ℝ) := by
    simp only [Finset.sum_range_succ, Finset.sum_range_zero]
    norm_num [Nat.factorial]
  rw [abs_le] at htay
  rw [abs_le] at hred
  constructor <;> linarith [htay.1, htay.2, hred.1, hred.2, hredval]

theorem sin_enc_21 :
    (418327819217 / 500000000000 : ℝ) ≤ Real.sin 21 ∧ Real.sin 21 ≤ (836655638637 / 1000000000000 : ℝ) := by
  have hred := sin_approx_of_reduced 21 ((53761101961531 / 25000000000000)) 3
  have hredval : |(21 : ℝ) - 2 * Real.pi * ((3 : ℤ) : ℝ) - (53761101961531 / 25000000000000)| ≤ 1 / 10000000000 := by
    have h1 := Real.pi_gt_d20
    have h2 := Real.pi_lt_d20
    rw [abs_le]
    push_cast
    constructor <;> linarith
  have htay := sin_taylor_10 ((53761101961531 / 25000000000000)) (by rw [abs_le]; constructor <;> norm_num)
  have habs : |((53761101961531 / 25000000000000) : ℝ)| ^ 21 / (Nat.factorial 21 : ℝ) * 2 ≤ 1 / 1000000000000 := by
    rw [abs_of_nonneg (by norm_num : (0:ℝ) ≤ (53761101961531 / 25000000000000))]
    norm_num [Nat.factorial]
  have hPlo : (8366556385358697 / 10000000000000000 : ℝ) ≤ ∑ n in Finset.range 10,
      (-1 : ℝ) ^ n * ((53761101961531 / 25000000000000) : ℝ) ^ (2 * n + 1) / (Nat.factorial (2 * n + 1) : ℝ) := by
    simp only [Finset.sum_range_succ, Finset.sum_range_zero]
    norm_num [Nat.factorial]
  have hPhi : (∑ n in Finset.range 10,
      (-1 : ℝ) ^ n * ((53761101961531 / 25000000000000) : ℝ) ^ (2 * n + 1) / (Nat.factorial (2 * n + 1) : ℝ))
      ≤ (4183278192679349 / 5000000000000000 : ℝ) := by
    simp only [Finset.sum_range_succ, Finset.sum_range_zero]
    norm_num [Nat.factorial]
  rw [abs_le] at htay
  rw [abs_le] at hred
  constructor <;> linarith [htay.1, htay.2, hred.1, hred.2, hredval]

theorem sin_enc_24 :
    (-(226394590527 / 250000000000) : ℝ) ≤ Real.sin 24 ∧ Real.sin 24 ≤ (-(181115672381 / 200000000000) : ℝ) := by
  have hred := sin_approx_of_reduced 24 ((-(22654824574367) / 20000000000000)) 4
  have hredval : |(24 : ℝ) - 2 * Real.pi * ((4 : ℤ) : ℝ) - (-(22654824574367) / 20000000000000)| ≤ 1 / 10000000000 := by
    have h1 := Real.pi_gt_d20
    have h2 := Real.pi_lt_d20
    rw [abs_le]
    push_cast
    constructor <;> linarith
  have htay := sin_taylor_10 ((-(22654824574367) / 20000000000000)) (by rw [abs_le]; constructor <;> norm_num)
  have habs : |((-(22654824574367) / 20000000000000) : ℝ)| ^ 21 / (Nat.factorial 21 : ℝ) * 2 ≤ 1 / 1000000000000 := by
    rw [abs_of_nonpos (by norm_num : ((-(22654824574367) / 20000000000000) : ℝ) ≤ 0)]
    norm_num [Nat.factorial]
  have hPlo : (-(565986476254141 / 625000000000000) : ℝ) ≤ ∑ n in Finset.range 10,
      (-1 : ℝ) ^ n * ((-(22654824574367) / 20000000000000) : ℝ) ^ (2 * n + 1) / (Nat.factorial (2 * n + 1) : ℝ) := by
    simp only [Finset.sum_range_succ, Finset.sum_range_zero]
    norm_num [Nat.factorial]
  have hPhi : (∑ n in Finset.range 10,
      (-1 : ℝ) ^ n * ((-(22654824574367) / 20000000000000) : ℝ) ^ (2 * n + 1) / (Nat.factorial (2 * n + 1) : ℝ))
      ≤ (-(1811156724013251 / 2000000000000000) : ℝ) := by
    simp only [Finset.sum_range_succ, Finset.sum_range_zero]
    norm_num [Nat.factorial]
  rw [abs_le] at htay
  rw [abs_le] at hred
  constructor <;> linarith [htay.1, htay.2, hred.1, hred.2, hredval]

theorem sin_enc_27 :
    (956375928303 / 1000000000000 : ℝ) ≤ Real.sin 27 ∧ Real.sin 27 ≤ (478187964253 / 500000000000 : ℝ) := by
  have hred := sin_approx_of_reduced 27 ((37345175425633 / 20000000000000)) 4
  have hredval : |(27 : ℝ) - 2 * Real.pi * ((4 : ℤ) : ℝ) - (37345175425633 / 20000000000000)| ≤ 1 / 10000000000 := by
    have h1 := Real.pi_gt_d20
    have h2 := Real.pi_lt_d20
    rw [abs_le]
    push_cast
    constructor <;> linarith
  have htay := sin_taylor_10 ((37345175425633 / 20000000000000)) (by rw [abs_le]; constructor <;> norm_num)
  have habs : |((37345175425633 / 20000000000000) : ℝ)| ^ 21 / (Nat.factorial 21 : ℝ) * 2 ≤ 1 / 1000000000000 := by
    rw [abs_of_nonneg (by norm_num : (0:ℝ) ≤ (37345175425633 / 20000000000000))]
    norm_num [Nat.factorial]
  have hPlo : (1912751856808989 / 2000000000000000 : ℝ) ≤ ∑ n in Finset.range 10,
      (-1 : ℝ) ^ n * ((37345175425633 / 20000000000000) : ℝ) ^ (2 * n + 1) / (Nat.factorial (2 * n + 1) : ℝ) := by
    simp only [Finset.sum_range_succ, Finset.sum_range_zero]
    norm_num [Nat.factorial]
  have hPhi : (∑ n in Finset.range 10,
      (-1 : ℝ) ^ n * ((37345175425633 / 20000000000000) : ℝ) ^ (2 * n + 1) / (Nat.factorial (2 * n + 1) : ℝ))
      ≤ (4781879642022473 / 5000000000000000 : ℝ) := by
    simp only [Finset.sum_range_succ, Finset.sum_range_zero]
    norm_num [Nat.factorial]
  rw [abs_le] at htay
  rw [abs_le] at hred
  constructor <;> linarith [htay.1, htay.2, hred.1, hred.2, hredval]

theorem sin_enc_30 :
    (-(494015812097 / 500000000000) : ℝ) ≤ Real.sin 30 ∧ Real.sin 30 ≤ (-(988031623991 / 1000000000000) : ℝ) := by
  have hred := sin_approx_of_reduced 30 ((-(141592653589793) / 100000000000000)) 5
  have hredval : |(30 : ℝ) - 2 * Real.pi * ((5 : ℤ) : ℝ) - (-(141592653589793) / 100000000000000)| ≤ 1 / 10000000000 := by
    have h1 := Real.pi_gt_d20
    have h2 := Real.pi_lt_d20
    rw [abs_le]
    push_cast
    constructor <;> linarith
  have htay := sin_taylor_10 ((-(141592653589793) / 100000000000000)) (by rw [abs_le]; constructor <;> norm_num)
  have habs : |((-(141592653589793) / 100000000000000) : ℝ)| ^ 21 / (Nat.factorial 21 : ℝ) * 2 ≤ 1 / 1000000000000 := by
    rw [abs_of_nonpos (by norm_num : ((-(141592653589793) / 100000000000000) : ℝ) ≤ 0)]
    norm_num [Nat.factorial]
  have hPlo : (-(4940158120464307 / 5000000000000000) : ℝ) ≤ ∑ n in Finset.range 10,
      (-1 : ℝ) ^ n * ((-(141592653589793) / 100000000000000) : ℝ) ^ (2 * n + 1) / (Nat.factorial (2 * n + 1) : ℝ) := by
    simp only [Finset.sum_range_succ, Finset.sum_range_zero]
    norm_num [Nat.factorial]
  have hPhi : (∑ n in Finset.range 10,
      (-1 : ℝ) ^ n * ((-(141592653589793) / 100000000000000) : ℝ) ^ (2 * n + 1) / (Nat.factorial (2 * n + 1) : ℝ))
      ≤ (-(9880316240928613 / 10000000000000000) : ℝ) := by
    simp only [Finset.sum_range_succ, Finset.sum_range_zero]
    norm_num [Nat.factorial]
  rw [abs_le] at htay
  rw [abs_le] at hred
  constructor <;> linarith [htay.1, htay.2, hred.1, hred.2, hredval]

theorem sin_enc_33 :
    (499955930003 / 500000000000 : ℝ) ≤ Real.sin 33 ∧ Real.sin 33 ≤ (999911860209 / 1000000000000 : ℝ) := by
  have hred := sin_approx_of_reduced 33 ((158407346410207 / 100000000000000)) 5
  have hredval : |(33 : ℝ) - 2 * Real.pi * ((5 : ℤ) : ℝ) - (158407346410207 / 100000000000000)| ≤ 1 / 10000000000 := by
    have h1 := Real.pi_gt_d20
    have h2 := Real.pi_lt_d20
    rw [abs_le]
    push_cast
    constructor <;> linarith
  have htay := sin_taylor_10 ((158407346410207 / 100000000000000)) (by rw [abs_le]; constructor <;> norm_num)
  have habs : |((158407346410207 / 100000000000000) : ℝ)| ^ 21 / (Nat.factorial 21 : ℝ) * 2 ≤ 1 / 1000000000000 := by
    rw [abs_of_nonneg (by norm_num : (0:ℝ) ≤ (158407346410207 / 100000000000000))]
    norm_num [Nat.factorial]
  have hPlo : (2499779650268167 / 2500000000000000 : ℝ) ≤ ∑ n in Finset.range 10,
      (-1 : ℝ) ^ n * ((158407346410207 / 100000000000000) : ℝ) ^ (2 * n + 1) / (Nat.factorial (2 * n + 1) : ℝ) := by
    simp only [Finset.sum_range_succ, Finset.sum_range_zero]
    norm_num [Nat.factorial]
  have hPhi : (∑ n in Finset.range 10,
      (-1 : ℝ) ^ n * ((158407346410207 / 100000000000000) : ℝ) ^ (2 * n + 1) / (Nat.factorial (2 * n + 1) : ℝ))
      ≤ (9999118601072669 / 10000000000000000 : ℝ) := by
    simp only [Finset.sum_range_succ, Finset.sum_range_zero]
    norm_num [Nat.factorial]
  rw [abs_le] at htay
  rw [abs_le] at hred
  constructor <;> linarith [htay.1, htay.2, hred.1, hred.2, hredval]

theorem sin_enc_36 :
    (-(198355770709 / 200000000000) : ℝ) ≤ Real.sin 36 ∧ Real.sin 36 ≤ (-(495889426671 / 500000000000) : ℝ) := by
  have hred := sin_approx_of_reduced 36 ((-(21238898038469) / 12500000000000)) 6
  have hredval : |(36 : ℝ) - 2 * Real.pi * ((6 : ℤ) : ℝ) - (-(21238898038469) / 12500000000000)| ≤ 1 / 10000000000 := by
    have h1 := Real.pi_gt_d20
    have h2 := Real.pi_lt_d20
    rw [abs_le]
    push_cast
    constructor <;> linarith
  have htay := sin_taylor_10 ((-(21238898038469) / 12500000000000)) (by rw [abs_le]; constructor <;> norm_num)
  have habs : |((-(21238898038469) / 12500000000000) : ℝ)| ^ 21 / (Nat.factorial 21 : ℝ) * 2 ≤ 1 / 1000000000000 := by
    rw [abs_of_nonpos (by norm_num : ((-(21238898038469) / 12500000000000) : ℝ) ≤ 0)]
    norm_num [Nat.factorial]
  have hPlo : (-(9917788534431143 / 10000000000000000) : ℝ) ≤ ∑ n in Finset.range 10,
      (-1 : ℝ) ^ n * ((-(21238898038469) / 12500000000000) : ℝ) ^ (2 * n + 1) / (Nat.factorial (2 * n + 1) : ℝ) := by
    simp only [Finset.sum_range_succ, Finset.sum_range_zero]
    norm_num [Nat.factorial]
  have hPhi : (∑ n in Finset.range 10,
      (-1 : ℝ) ^ n * ((-(21238898038469) / 12500000000000) : ℝ) ^ (2 * n + 1) / (Nat.factorial (2 * n + 1) : ℝ))
      ≤ (-(4958894267215571 / 5000000000000000) : ℝ) := by
    simp only [Finset.sum_range_succ, Finset.sum_range_zero]
    norm_num [Nat.factorial]
  rw [abs_le] at htay
  rw [abs_le] at hred
  constructor <;> linarith [htay.1, htay.2, hred.1, hred.2, hredval]


theorem headA_enc :
    (6350110013733 / 100000000000000 : ℝ) ≤ (∑ x in Finset.range 12, besselI (x + 1) 1 * Real.sin (((x : ℝ) + 1) * 3) / ((x : ℝ) + 1)) ∧
      (∑ x in Finset.range 12, besselI (x + 1) 1 * Real.sin (((x : ℝ) + 1) * 3) / ((x : ℝ) + 1)) ≤ (793763757719 / 12500000000000 : ℝ) := by
  have hI1 := besselI_1_1_enc
  have hs1 := sin_enc_3
  have hI2 := besselI_2_1_enc
  have hs2 := sin_enc_6
  have hI3 := besselI_3_1_enc
  have hs3 := sin_enc_9
  have hI4 := besselI_4_1_enc
  have hs4 := sin_enc_12
  have hI5 := besselI_5_1_enc
  have hs5 := sin_enc_15
  have hI6 := besselI_6_1_enc
  have hs6 := sin_enc_18
  have hI7 := besselI_7_1_enc
  have hs7 := sin_enc_21
  have hI8 := besselI_8_1_enc
  have hs8 := sin_enc_24
  have hI9 := besselI_9_1_enc
  have hs9 := sin_enc_27
  have hI10 := besselI_10_1_enc
  have hs10 := sin_enc_30
  have hI11 := besselI_11_1_enc
  have hs11 := sin_enc_33
  have hI12 := besselI_12_1_enc
  have hs12 := sin_enc_36
  have ht1 := mul_div_bounds_pos (141289775998121 / 250000000000000) (282579551996243 / 500000000000000) (17640000931 / 125000000000) (141120008269 / 1000000000000) (1 : ℝ)
    (by norm_num) hI1.1 hI1.2 (by norm_num) hs1.1 hs1.2 (by norm_num : (0:ℝ) ≤ (17640000931 / 125000000000 : ℝ))
  have ht2 := mul_div_bounds_neg (67873834883519 / 500000000000000) (135747669767039 / 1000000000000000) (-(2794154983 / 10000000000)) (-(279415498097 / 1000000000000)) (2 : ℝ)
    (by norm_num) hI2.1 hI2.2 (by norm_num) hs2.1 hs2.2 (by norm_num : ((-(279415498097 / 1000000000000)) : ℝ) ≤ 0)
  have ht3 := mul_div_bounds_pos (22168424924331 / 1000000000000000) (5542106231083 / 250000000000000) (51514810633 / 125000000000) (412118485369 / 1000000000000) (3 : ℝ)
    (by norm_num) hI3.1 hI3.2 (by norm_num) hs3.1 hs3.2 (by norm_num : (0:ℝ) ≤ (51514810633 / 125000000000 : ℝ))
  have ht4 := mul_div_bounds_neg (1368560110523 / 500000000000000) (2737120221047 / 1000000000000000) (-(268286459051 / 500000000000)) (-(536572917899 / 1000000000000)) (4 : ℝ)
    (by norm_num) hI4.1 hI4.2 (by norm_num) hs4.1 hs4.2 (by norm_num : ((-(536572917899 / 1000000000000)) : ℝ) ≤ 0)
  have ht5 := mul_div_bounds_pos (67865788989 / 250000000000000) (271463155957 / 1000000000000000) (40642990003 / 62500000000) (650287840261 / 1000000000000) (5 : ℝ)
    (by norm_num) hI5.1 hI5.2 (by norm_num) hs5.1 hs5.2 (by norm_num : (0:ℝ) ≤ (40642990003 / 62500000000 : ℝ))
  have ht6 := mul_div_bounds_neg (22488661477 / 1000000000000000) (11244330739 / 500000000000000) (-(750987246873 / 1000000000000)) (-(75098724667 / 100000000000)) (6 : ℝ)
    (by norm_num) hI6.1 hI6.2 (by norm_num) hs6.1 hs6.2 (by norm_num : ((-(75098724667 / 100000000000)) : ℝ) ≤ 0)
  have ht7 := mul_div_bounds_pos (1599218231 / 1000000000000000) (199902279 / 125000000000000) (418327819217 / 500000000000) (836655638637 / 1000000000000) (7 : ℝ)
    (by norm_num) hI7.1 hI7.2 (by norm_num) hs7.1 hs7.2 (by norm_num : (0:ℝ) ≤ (418327819217 / 500000000000 : ℝ))
  have ht8 := mul_div_bounds_neg (622539 / 6250000000000) (99606241 / 1000000000000000) (-(226394590527 / 250000000000)) (-(181115672381 / 200000000000)) (8 : ℝ)
    (by norm_num) hI8.1 hI8.2 (by norm_num) hs8.1 hs8.2 (by norm_num : ((-(181115672381 / 200000000000)) : ℝ) ≤ 0)
  have ht9 := mul_div_bounds_pos (1103677 / 200000000000000) (2759193 / 500000000000000) (956375928303 / 1000000000000) (478187964253 / 500000000000) (9 : ℝ)
    (by norm_num) hI9.1 hI9.2 (by norm_num) hs9.1 hs9.2 (by norm_num : (0:ℝ) ≤ (956375928303 / 1000000000000 : ℝ))
  have ht10 := mul_div_bounds_neg (137647 / 500000000000000) (55059 / 200000000000000) (-(494015812097 / 500000000000)) (-(988031623991 / 1000000000000)) (10 : ℝ)
    (by norm_num) hI10.1 hI10.2 (by norm_num) hs10.1 hs10.2 (by norm_num : ((-(988031623991 / 1000000000000)) : ℝ) ≤ 0)
  have ht11 := mul_div_bounds_pos (12489 / 1000000000000000) (1249 / 100000000000000) (499955930003 / 500000000000) (999911860209 / 1000000000000) (11 : ℝ)
    (by norm_num) hI11.1 hI11.2 (by norm_num) hs11.1 hs11.2 (by norm_num : (0:ℝ) ≤ (499955930003 / 500000000000 : ℝ))
  have ht12 := mul_div_bounds_neg (519 / 1000000000000000) (13 / 25000000000000) (-(198355770709 / 200000000000)) (-(495889426671 / 500000000000)) (12 : ℝ)
    (by norm_num) hI12.1 hI12.2 (by norm_num) hs12.1 hs12.2 (by norm_num : ((-(495889426671 / 500000000000)) : ℝ) ≤ 0)
  simp only [Finset.sum_range_succ, Finset.sum_range_zero]
  push_cast
  norm_num
  constructor <;> linarith [ht1.1, ht1.2, ht2.1, ht2.2, ht3.1, ht3.2, ht4.1, ht4.2, ht5.1, ht5.2, ht6.1, ht6.2, ht7.1, ht7.2, ht8.1, ht8.2, ht9.1, ht9.2, ht10.1, ht10.2, ht11.1, ht11.2, ht12.1, ht12.2]

theorem headB_enc :
    (273058483806833 / 25000000000000 : ℝ) ≤ (∑ x in Finset.range 18, besselI (x + 1) 4 * Real.sin ((x : ℝ) + 1) / ((x : ℝ) + 1)) ∧
      (∑ x in Finset.range 18, besselI (x + 1) 4 * Real.sin ((x : ℝ) + 1) / ((x : ℝ) + 1)) ≤ (1092233935332537 / 100000000000000 : ℝ) := by
  have hI1 := besselI_1_4_enc
  have hs1 := sin_enc_1
  have hI2 := besselI_2_4_enc
  have hs2 := sin_enc_2
  have hI3 := besselI_3_4_enc
  have hs3 := sin_enc_3
  have hI4 := besselI_4_4_enc
  have hs4 := sin_enc_4
  have hI5 := besselI_5_4_enc
  have hs5 := sin_enc_5
  have hI6 := besselI_6_4_enc
  have hs6 := sin_enc_6
  have hI7 := besselI_7_4_enc
  have hs7 := sin_enc_7
  have hI8 := besselI_8_4_enc
  have hs8 := sin_enc_8
  have hI9 := besselI_9_4_enc
  have hs9 := sin_enc_9
  have hI10 := besselI_10_4_enc
  have hs10 := sin_enc_10
  have hI11 := besselI_11_4_enc
  have hs11 := sin_enc_11
  have hI12 := besselI_12_4_enc
  have hs12 := sin_enc_12
  have hI13 := besselI_13_4_enc
  have hs13 := sin_enc_13
  have hI14 := besselI_14_4_enc
  have hs14 := sin_enc_14
  have hI15 := besselI_15_4_enc
  have hs15 := sin_enc_15
  have hI16 := besselI_16_4_enc
  have hs16 := sin_enc_16
  have hI17 := besselI_17_4_enc
  have hs17 := sin_enc_17
  have hI18 := besselI_18_4_enc
  have hs18 := sin_enc_18
  have ht1 := mul_div_bounds_pos (9759465153704449 / 1000000000000000) (195189303074089 / 20000000000000) (420735492403 / 500000000000) (841470984809 / 1000000000000) (1 : ℝ)
    (by norm_num) hI1.1 hI1.2 (by norm_num) hs1.1 hs1.2 (by norm_num : (0:ℝ) ≤ (420735492403 / 500000000000 : ℝ))
  have ht2 := mul_div_bounds_pos (1284437875056821 / 200000000000000) (3211094687642053 / 500000000000000) (113662178353 / 125000000000) (909297426827 / 1000000000000) (2 : ℝ)
    (by norm_num) hI2.1 hI2.2 (by norm_num) hs2.1 hs2.2 (by norm_num : (0:ℝ) ≤ (113662178353 / 125000000000 : ℝ))
  have ht3 := mul_div_bounds_pos (417159472302543 / 125000000000000) (667455155684069 / 200000000000000) (17640000931 / 125000000000) (141120008269 / 1000000000000) (3 : ℝ)
    (by norm_num) hI3.1 hI3.2 (by norm_num) hs3.1 hs3.2 (by norm_num : (0:ℝ) ≤ (17640000931 / 125000000000 : ℝ))
  have ht4 := mul_div_bounds_neg (354068926913397 / 250000000000000) (1416275707653589 / 1000000000000000) (-(75680249541 / 100000000000)) (-(151360499041 / 200000000000)) (4 : ℝ)
    (by norm_num) hI4.1 hI4.2 (by norm_num) hs4.1 hs4.2 (by norm_num : ((-(151360499041 / 200000000000)) : ℝ) ≤ 0)
  have ht5 := mul_div_bounds_neg (252362181556583 / 500000000000000) (504724363113167 / 1000000000000000) (-(191784854953 / 200000000000)) (-(479462137281 / 500000000000)) (5 : ℝ)
    (by norm_num) hI5.1 hI5.2 (by norm_num) hs5.1 hs5.2 (by norm_num : ((-(479462137281 / 500000000000)) : ℝ) ≤ 0)
  have ht6 := mul_div_bounds_neg (154464799870673 / 1000000000000000) (77232399935337 / 500000000000000) (-(2794154983 / 10000000000)) (-(279415498097 / 1000000000000)) (6 : ℝ)
    (by norm_num) hI6.1 hI6.2 (by norm_num) hs6.1 hs6.2 (by norm_num : ((-(279415498097 / 1000000000000)) : ℝ) ≤ 0)
  have ht7 := mul_div_bounds_pos (41329963501147 / 1000000000000000) (10332490875287 / 250000000000000) (656986598617 / 1000000000000) (32849329941 / 50000000000) (7 : ℝ)
    (by norm_num) hI7.1 hI7.2 (by norm_num) hs7.1 hs7.2 (by norm_num : (0:ℝ) ≤ (656986598617 / 1000000000000 : ℝ))
  have ht8 := mul_div_bounds_pos (9809927616657 / 1000000000000000) (4904963808329 / 500000000000000) (494679123261 / 500000000000) (39574329869 / 40000000000) (8 : ℝ)
    (by norm_num) hI8.1 hI8.2 (by norm_num) hs8.1 hs8.2 (by norm_num : (0:ℝ) ≤ (494679123261 / 500000000000 : ℝ))
  have ht9 := mul_div_bounds_pos (2090253034517 / 1000000000000000) (1045126517259 / 500000000000000) (51514810633 / 125000000000) (412118485369 / 1000000000000) (9 : ℝ)
    (by norm_num) hI9.1 hI9.2 (by norm_num) hs9.1 hs9.2 (by norm_num : (0:ℝ) ≤ (51514810633 / 125000000000 : ℝ))
  have ht10 := mul_div_bounds_neg (201894480663 / 500000000000000) (403788961327 / 1000000000000000) (-(272010555499 / 500000000000)) (-(108804222153 / 200000000000)) (10 : ℝ)
    (by norm_num) hI10.1 hI10.2 (by norm_num) hs10.1 hs10.2 (by norm_num : ((-(108804222153 / 200000000000)) : ℝ) ≤ 0)
  have ht11 := mul_div_bounds_neg (71308227883 / 1000000000000000) (17827056971 / 250000000000000) (-(249997551663 / 250000000000)) (-(999990206449 / 1000000000000)) (11 : ℝ)
    (by norm_num) hI11.1 hI11.2 (by norm_num) hs11.1 hs11.2 (by norm_num : ((-(999990206449 / 1000000000000)) : ℝ) ≤ 0)
  have ht12 := mul_div_bounds_neg (11593707969 / 1000000000000000) (1159370797 / 100000000000000) (-(268286459051 / 500000000000)) (-(536572917899 / 1000000000000)) (12 : ℝ)
    (by norm_num) hI12.1 hI12.2 (by norm_num) hs12.1 hs12.2 (by norm_num : ((-(536572917899 / 1000000000000)) : ℝ) ≤ 0)
  have ht13 := mul_div_bounds_pos (1745980067 / 1000000000000000) (436495017 / 250000000000000) (16806681469 / 40000000000) (102579843 / 244140625) (13 : ℝ)
    (by norm_num) hI13.1 hI13.2 (by norm_num) hs13.1 hs13.2 (by norm_num : (0:ℝ) ≤ (16806681469 / 40000000000 : ℝ))
  have ht14 := mul_div_bounds_pos (244837527 / 1000000000000000) (30604691 / 125000000000000) (990607355593 / 1000000000000) (247651838949 / 250000000000) (14 : ℝ)
    (by norm_num) hI14.1 hI14.2 (by norm_num) hs14.1 hs14.2 (by norm_num : (0:ℝ) ≤ (990607355593 / 1000000000000 : ℝ))
  have ht15 := mul_div_bounds_pos (16058687 / 500000000000000) (256939 / 8000000000000) (40642990003 / 62500000000) (650287840261 / 1000000000000) (15 : ℝ)
    (by norm_num) hI15.1 hI15.2 (by norm_num) hs15.1 hs15.2 (by norm_num : (0:ℝ) ≤ (40642990003 / 62500000000 : ℝ))
  have ht16 := mul_div_bounds_neg (3957219 / 1000000000000000) (197861 / 50000000000000) (-(71975829209 / 250000000000)) (-(287903316357 / 1000000000000)) (16 : ℝ)
    (by norm_num) hI16.1 hI16.2 (by norm_num) hs16.1 hs16.2 (by norm_num : ((-(287903316357 / 1000000000000)) : ℝ) ≤ 0)
  have ht17 := mul_div_bounds_neg (91923 / 200000000000000) (14363 / 31250000000000) (-(961397491981 / 1000000000000)) (-(480698745889 / 500000000000)) (17 : ℝ)
    (by norm_num) hI17.1 hI17.2 (by norm_num) hs17.1 hs17.2 (by norm_num : ((-(480698745889 / 500000000000)) : ℝ) ≤ 0)
  have ht18 := mul_div_bounds_neg (12621 / 250000000000000) (10097 / 200000000000000) (-(750987246873 / 1000000000000)) (-(75098724667 / 100000000000)) (18 : ℝ)
    (by norm_num) hI18.1 hI18.2 (by norm_num) hs18.1 hs18.2 (by norm_num : ((-(75098724667 / 100000000000)) : ℝ) ≤ 0)
  simp only [Finset.sum_range_succ, Finset.sum_range_zero]
  push_cast
  norm_num
  constructor <;> linarith [ht1.1, ht1.2, ht2.1, ht2.2, ht3.1, ht3.2, ht4.1, ht4.2, ht5.1, ht5.2, ht6.1, ht6.2, ht7.1, ht7.2, ht8.1, ht8.2, ht9.1, ht9.2, ht10.1, ht10.2, ht11.1, ht11.2, ht12.1, ht12.2, ht13.1, ht13.2, ht14.1, ht14.2, ht15.1, ht15.2, ht16.1, ht16.2, ht17.1, ht17.2, ht18.1, ht18.2]


theorem tailA_enc : |∑ x in Finset.Ico 12 100, besselI (x + 1) 1 * Real.sin (((x : ℝ) + 1) * 3) / ((x : ℝ) + 1)| ≤ 1 / 10000000000000 := by
  have hbound : ∀ x ∈ Finset.Ico 12 100,
      |besselI (x + 1) 1 * Real.sin (((x : ℝ) + 1) * 3) / ((x : ℝ) + 1)|
        ≤ 1.02 * (1 / 2) ^ (x + 1) / (Nat.factorial (x + 1) : ℝ) := by
    intro x hx
    have hx12 : 12 ≤ x := (Finset.mem_Ico.mp hx).1
    have hb := besselI_nonneg (x + 1) 1 (by norm_num)
    have hble := besselI_one_le (x + 1) (by omega)
    have hxpos : (0:ℝ) < (x : ℝ) + 1 := by positivity
    rw [abs_div, abs_mul, abs_of_nonneg hb, abs_of_nonneg (le_of_lt hxpos)]
    calc besselI (x + 1) 1 * |Real.sin (((x : ℝ) + 1) * 3)| / ((x : ℝ) + 1)
        ≤ besselI (x + 1) 1 * 1 / ((x : ℝ) + 1) := by
          rw [div_le_div_iff hxpos hxpos]
          have h1 : besselI (x + 1) 1 * |Real.sin (((x : ℝ) + 1) * 3)|
              ≤ besselI (x + 1) 1 * 1 :=
            mul_le_mul_of_nonneg_left (Real.abs_sin_le_one _) hb
          nlinarith [h1, hxpos]
      _ = besselI (x + 1) 1 / ((x : ℝ) + 1) := by rw [mul_one]
      _ ≤ besselI (x + 1) 1 := by
          rw [div_le_iff hxpos]
          nlinarith [hb, (Nat.cast_nonneg x : (0:ℝ) ≤ (x : ℕ))]
      _ ≤ 1.02 * (1 / 2) ^ (x + 1) / (Nat.factorial (x + 1) : ℝ) := hble
  have hstep : ∀ j, 12 ≤ j →
      1.02 * (1 / 2) ^ (j + 1 + 1) / (Nat.factorial (j + 1 + 1) : ℝ) ≤
        1 / 2 * (1.02 * (1 / 2) ^ (j + 1) / (Nat.factorial (j + 1) : ℝ)) := by
    intro j hj
    have hF : (0:ℝ) < (Nat.factorial (j + 1) : ℝ) := by exact_mod_cast Nat.factorial_pos _
    have hP : (0:ℝ) < ((1:ℝ) / 2) ^ (j + 1) := by positivity
    have heq : (Nat.factorial (j + 1 + 1) : ℝ) =
        ((j : ℝ) + 2) * (Nat.factorial (j + 1) : ℝ) := by
      rw [show j + 1 + 1 = (j + 1) + 1 from rfl, Nat.factorial_succ]
      push_cast
      ring
    have hrhs : 1 / 2 * (1.02 * (1 / 2) ^ (j + 1) / (Nat.factorial (j + 1) : ℝ)) =
        (1 / 2 * (1.02 * (1 / 2) ^ (j + 1))) / (Nat.factorial (j + 1) : ℝ) := by ring
    rw [heq, pow_succ, hrhs, div_le_div_iff (by positivity) hF]
    nlinarith [mul_pos hP hF,
      mul_nonneg (mul_nonneg hP.le hF.le) (Nat.cast_nonneg j : (0:ℝ) ≤ (j : ℕ))]
  calc |∑ x in Finset.Ico 12 100, besselI (x + 1) 1 * Real.sin (((x : ℝ) + 1) * 3) / ((x : ℝ) + 1)|
      ≤ ∑ x in Finset.Ico 12 100,
          |besselI (x + 1) 1 * Real.sin (((x : ℝ) + 1) * 3) / ((x : ℝ) + 1)| :=
        Finset.abs_sum_le_sum_abs _ _
    _ ≤ ∑ x in Finset.Ico 12 100, 1.02 * (1 / 2) ^ (x + 1) / (Nat.factorial (x + 1) : ℝ) :=
        Finset.sum_le_sum hbound
    _ ≤ (1.02 * (1 / 2) ^ (12 + 1) / (Nat.factorial (12 + 1) : ℝ)) / (1 - 1 / 2) :=
        sum_Ico_le_geom _ 12 100 (1 / 2) (by norm_num) (by norm_num)
          (fun j => by positivity) hstep
    _ ≤ 1 / 10000000000000 := by norm_num [Nat.factorial]

theorem tailB_enc : |∑ x in Finset.Ico 18 100, besselI (x + 1) 4 * Real.sin ((x : ℝ) + 1) / ((x : ℝ) + 1)| ≤ 1 / 100000000000 := by
  have hbound : ∀ x ∈ Finset.Ico 18 100,
      |besselI (x + 1) 4 * Real.sin ((x : ℝ) + 1) / ((x : ℝ) + 1)|
        ≤ 1.31 * 2 ^ (x + 1) / (Nat.factorial (x + 1) : ℝ) := by
    intro x hx
    have hx18 : 18 ≤ x := (Finset.mem_Ico.mp hx).1
    have hb := besselI_nonneg (x + 1) 4 (by norm_num)
    have hble := besselI_four_le (x + 1) (by omega)
    have hxpos : (0:ℝ) < (x : ℝ) + 1 := by positivity
    rw [abs_div, abs_mul, abs_of_nonneg hb, abs_of_nonneg (le_of_lt hxpos)]
    calc besselI (x + 1) 4 * |Real.sin ((x : ℝ) + 1)| / ((x : ℝ) + 1)
        ≤ besselI (x + 1) 4 * 1 / ((x : ℝ) + 1) := by
          rw [div_le_div_iff hxpos hxpos]
          have h1 : besselI (x + 1) 4 * |Real.sin ((x : ℝ) + 1)|
              ≤ besselI (x + 1) 4 * 1 :=
            mul_le_mul_of_nonneg_left (Real.abs_sin_le_one _) hb
          nlinarith [h1, hxpos]
      _ = besselI (x + 1) 4 / ((x : ℝ) + 1) := by rw [mul_one]
      _ ≤ besselI (x + 1) 4 := by
          rw [div_le_iff hxpos]
          nlinarith [hb, (Nat.cast_nonneg x : (0:ℝ) ≤ (x : ℕ))]
      _ ≤ 1.31 * 2 ^ (x + 1) / (Nat.factorial (x + 1) : ℝ) := hble
  have hstep : ∀ j, 18 ≤ j →
      1.31 * 2 ^ (j + 1 + 1) / (Nat.factorial (j + 1 + 1) : ℝ) ≤
        1 / 10 * (1.31 * 2 ^ (j + 1) / (Nat.factorial (j + 1) : ℝ)) := by
    intro j hj
    have hF : (0:ℝ) < (Nat.factorial (j + 1) : ℝ) := by exact_mod_cast Nat.factorial_pos _
    have hP : (0:ℝ) < (2:ℝ) ^ (j + 1) := by positivity
    have hj' : (18:ℝ) ≤ (j : ℝ) := by exact_mod_cast hj
    have heq : (Nat.factorial (j + 1 + 1) : ℝ) =
        ((j : ℝ) + 2) * (Nat.factorial (j + 1) : ℝ) := by
      rw [show j + 1 + 1 = (j + 1) + 1 from rfl, Nat.factorial_succ]
      push_cast
      ring
    have hrhs : 1 / 10 * (1.31 * 2 ^ (j + 1) / (Nat.factorial (j + 1) : ℝ)) =
        (1 / 10 * (1.31 * 2 ^ (j + 1))) / (Nat.factorial (j + 1) : ℝ) := by ring
    rw [heq, pow_succ, hrhs, div_le_div_iff (by positivity) hF]
    nlinarith [mul_pos hP hF, mul_nonneg (mul_nonneg hP.le hF.le)
      (by linarith : (0:ℝ) ≤ (j : ℝ) - 18)]
  calc |∑ x in Finset.Ico 18 100, besselI (x + 1) 4 * Real.sin ((x : ℝ) + 1) / ((x : ℝ) + 1)|
      ≤ ∑ x in Finset.Ico 18 100,
          |besselI (x + 1) 4 * Real.sin ((x : ℝ) + 1) / ((x : ℝ) + 1)| :=
        Finset.abs_sum_le_sum_abs _ _
    _ ≤ ∑ x in Finset.Ico 18 100, 1.31 * 2 ^ (x + 1) / (Nat.factorial (x + 1) : ℝ) :=
        Finset.sum_le_sum hbound
    _ ≤ (1.31 * 2 ^ (18 + 1) / (Nat.factorial (18 + 1) : ℝ)) / (1 - 1 / 10) :=
        sum_Ico_le_geom _ 18 100 (1 / 10) (by norm_num) (by norm_num)
          (fun j => by positivity) hstep
    _ ≤ 1 / 100000000000 := by norm_num [Nat.factorial]

theorem SA_sum_enc :
    (6350110013723 / 100000000000000 : ℝ) ≤ (∑ x in Finset.range 100, besselI (x + 1) 1 * Real.sin (((x : ℝ) + 1) * 3) / ((x : ℝ) + 1)) ∧ (∑ x in Finset.range 100, besselI (x + 1) 1 * Real.sin (((x : ℝ) + 1) * 3) / ((x : ℝ) + 1)) ≤ (3175055030881 / 50000000000000 : ℝ) := by
  have hsplit : (∑ x in Finset.range 100, besselI (x + 1) 1 * Real.sin (((x : ℝ) + 1) * 3) / ((x : ℝ) + 1)) = (∑ x in Finset.range 12, besselI (x + 1) 1 * Real.sin (((x : ℝ) + 1) * 3) / ((x : ℝ) + 1)) + (∑ x in Finset.Ico 12 100, besselI (x + 1) 1 * Real.sin (((x : ℝ) + 1) * 3) / ((x : ℝ) + 1)) := by
    rw [Finset.range_eq_Ico, ← Finset.sum_Ico_consecutive _
      (by norm_num : (0:ℕ) ≤ 12) (by norm_num : (12:ℕ) ≤ 100), ← Finset.range_eq_Ico]
  have hh := headA_enc
  have ht := tailA_enc
  rw [abs_le] at ht
  rw [hsplit]
  constructor <;> linarith [hh.1, hh.2, ht.1, ht.2]

theorem SB_sum_enc :
    (273058483806583 / 25000000000000 : ℝ) ≤ (∑ x in Finset.range 100, besselI (x + 1) 4 * Real.sin ((x : ℝ) + 1) / ((x : ℝ) + 1)) ∧ (∑ x in Finset.range 100, besselI (x + 1) 4 * Real.sin ((x : ℝ) + 1) / ((x : ℝ) + 1)) ≤ (1092233935333537 / 100000000000000 : ℝ) := by
  have hsplit : (∑ x in Finset.range 100, besselI (x + 1) 4 * Real.sin ((x : ℝ) + 1) / ((x : ℝ) + 1)) = (∑ x in Finset.range 18, besselI (x + 1) 4 * Real.sin ((x : ℝ) + 1) / ((x : ℝ) + 1)) + (∑ x in Finset.Ico 18 100, besselI (x + 1) 4 * Real.sin ((x : ℝ) + 1) / ((x : ℝ) + 1)) := by
    rw [Finset.range_eq_Ico, ← Finset.sum_Ico_consecutive _
      (by norm_num : (0:ℕ) ≤ 18) (by norm_num : (18:ℕ) ≤ 100), ← Finset.range_eq_Ico]
  have hh := headB_enc
  have ht := tailB_enc
  rw [abs_le] at ht
  rw [hsplit]
  constructor <;> linarith [hh.1, hh.2, ht.1, ht.2]


theorem cdf_bound_S1 :
    |1 / 2 + (-3 + (2 * ∑ x in Finset.range 100, -(besselI (x + 1) 1 * Real.sin (((x : ℝ) + 1) * 3)) / ((x : ℝ) + 1)) / besselI 0 1) / (2 * Real.pi) -
        1313988913146491 / 200000000000000000| ≤ 1 / 1000000 := by
  have hneg : (∑ x in Finset.range 100, -(besselI (x + 1) 1 * Real.sin (((x : ℝ) + 1) * 3)) / ((x : ℝ) + 1)) = -(∑ x in Finset.range 100, besselI (x + 1) 1 * Real.sin (((x : ℝ) + 1) * 3) / ((x : ℝ) + 1)) := by
    rw [← Finset.sum_neg_distrib]
    refine Finset.sum_congr rfl fun j _ => ?_
    ring
  rw [hneg]
  have hS := SA_sum_enc
  have hI0 := besselI_0_1_enc
  have hpi1 := Real.pi_gt_d20
  have hpi2 := Real.pi_lt_d20
  have hq : (-(2 * (3175055030881 / 50000000000000))) / (633032938875999 / 500000000000000) ≤ 2 * -(∑ x in Finset.range 100, besselI (x + 1) 1 * Real.sin (((x : ℝ) + 1) * 3) / ((x : ℝ) + 1)) / besselI 0 1 ∧
      2 * -(∑ x in Finset.range 100, besselI (x + 1) 1 * Real.sin (((x : ℝ) + 1) * 3) / ((x : ℝ) + 1)) / besselI 0 1 ≤ (-(2 * (6350110013723 / 100000000000000))) / (1266065877752009 / 1000000000000000) :=
    div_bounds_neg (-(2 * (3175055030881 / 50000000000000))) (-(2 * (6350110013723 / 100000000000000))) (633032938875999 / 500000000000000) (1266065877752009 / 1000000000000000)
      (by linarith [hS.2]) (by linarith [hS.1]) hI0.1 hI0.2 (by norm_num) (by norm_num)
  have hw : (-3 + (-(2 * (3175055030881 / 50000000000000))) / (633032938875999 / 500000000000000)) / (2 * (314159265358979323846 / 100000000000000000000)) ≤
      (-3 + 2 * -(∑ x in Finset.range 100, besselI (x + 1) 1 * Real.sin (((x : ℝ) + 1) * 3) / ((x : ℝ) + 1)) / besselI 0 1) / (2 * Real.pi) ∧
      (-3 + 2 * -(∑ x in Finset.range 100, besselI (x + 1) 1 * Real.sin (((x : ℝ) + 1) * 3) / ((x : ℝ) + 1)) / besselI 0 1) / (2 * Real.pi) ≤
      (-3 + (-(2 * (6350110013723 / 100000000000000))) / (1266065877752009 / 1000000000000000)) / (2 * (314159265358979323847 / 100000000000000000000)) :=
    div_bounds_neg (-3 + (-(2 * (3175055030881 / 50000000000000))) / (633032938875999 / 500000000000000)) (-3 + (-(2 * (6350110013723 / 100000000000000))) / (1266065877752009 / 1000000000000000))
      (2 * (314159265358979323846 / 100000000000000000000)) (2 * (314159265358979323847 / 100000000000000000000))
      (by linarith [hq.1]) (by linarith [hq.2]) (by linarith) (by linarith)
      (by norm_num) (by norm_num)
  rw [abs_le]
  constructor <;> linarith [hw.1, hw.2]

theorem cdf_bound_S3 :
    |1 / 2 + (3 + (2 * ∑ x in Finset.range 100, besselI (x + 1) 1 * Real.sin (((x : ℝ) + 1) * 3) / ((x : ℝ) + 1)) / besselI 0 1) / (2 * Real.pi) -
        397372022173707 / 400000000000000| ≤ 1 / 1000000 := by
  have hS := SA_sum_enc
  have hI0 := besselI_0_1_enc
  have hpi1 := Real.pi_gt_d20
  have hpi2 := Real.pi_lt_d20
  have hq : (2 * (6350110013723 / 100000000000000)) / (1266065877752009 / 1000000000000000) ≤ 2 * (∑ x in Finset.range 100, besselI (x + 1) 1 * Real.sin (((x : ℝ) + 1) * 3) / ((x : ℝ) + 1)) / besselI 0 1 ∧
      2 * (∑ x in Finset.range 100, besselI (x + 1) 1 * Real.sin (((x : ℝ) + 1) * 3) / ((x : ℝ) + 1)) / besselI 0 1 ≤ (2 * (3175055030881 / 50000000000000)) / (633032938875999 / 500000000000000) :=
    div_bounds_pos (2 * (6350110013723 / 100000000000000)) (2 * (3175055030881 / 50000000000000)) (633032938875999 / 500000000000000) (1266065877752009 / 1000000000000000)
      (by linarith [hS.1]) (by linarith [hS.2]) hI0.1 hI0.2 (by norm_num) (by norm_num)
  have hw : (3 + (2 * (6350110013723 / 100000000000000)) / (1266065877752009 / 1000000000000000)) / (2 * (314159265358979323847 / 100000000000000000000)) ≤
      (3 + 2 * (∑ x in Finset.range 100, besselI (x + 1) 1 * Real.sin (((x : ℝ) + 1) * 3) / ((x : ℝ) + 1)) / besselI 0 1) / (2 * Real.pi) ∧
      (3 + 2 * (∑ x in Finset.range 100, besselI (x + 1) 1 * Real.sin (((x : ℝ) + 1) * 3) / ((x : ℝ) + 1)) / besselI 0 1) / (2 * Real.pi) ≤
      (3 + (2 * (3175055030881 / 50000000000000)) / (633032938875999 / 500000000000000)) / (2 * (314159265358979323846 / 100000000000000000000)) :=
    div_bounds_pos (3 + (2 * (6350110013723 / 100000000000000)) / (1266065877752009 / 1000000000000000)) (3 + (2 * (3175055030881 / 50000000000000)) / (633032938875999 / 500000000000000))
      (2 * (314159265358979323846 / 100000000000000000000)) (2 * (314159265358979323847 / 100000000000000000000))
      (by linarith [hq.1]) (by linarith [hq.2]) (by linarith) (by linarith)
      (by norm_num) (by norm_num)
  rw [abs_le]
  constructor <;> linarith [hw.1, hw.2]

theorem cdf_bound_S4 :
    |1 / 2 + (-1 + (2 * ∑ x in Finset.range 100, besselI (x + 1) 4 * Real.sin (-1 + -(x : ℝ)) / ((x : ℝ) + 1)) / besselI 0 4) / (2 * Real.pi) -
        8306455225363371 / 250000000000000000| ≤ 1 / 1000000 := by
  have hneg : (∑ x in Finset.range 100, besselI (x + 1) 4 * Real.sin (-1 + -(x : ℝ)) / ((x : ℝ) + 1)) = -(∑ x in Finset.range 100, besselI (x + 1) 4 * Real.sin ((x : ℝ) + 1) / ((x : ℝ) + 1)) := by
    rw [← Finset.sum_neg_distrib]
    refine Finset.sum_congr rfl fun j _ => ?_
    rw [show (-1 + -(j : ℝ)) = -((j : ℝ) + 1) from by ring, Real.sin_neg]
    ring
  rw [hneg]
  have hS := SB_sum_enc
  have hI0 := besselI_0_4_enc
  have hpi1 := Real.pi_gt_d20
  have hpi2 := Real.pi_lt_d20
  have hq : (-(2 * (1092233935333537 / 100000000000000))) / (1130192195213633 / 100000000000000) ≤ 2 * -(∑ x in Finset.range 100, besselI (x + 1) 4 * Real.sin ((x : ℝ) + 1) / ((x : ℝ) + 1)) / besselI 0 4 ∧
      2 * -(∑ x in Finset.range 100, besselI (x + 1) 4 * Real.sin ((x : ℝ) + 1) / ((x : ℝ) + 1)) / besselI 0 4 ≤ (-(2 * (273058483806583 / 25000000000000))) / (11301921952136331 / 1000000000000000) :=
    div_bounds_neg (-(2 * (1092233935333537 / 100000000000000))) (-(2 * (273058483806583 / 25000000000000))) (1130192195213633 / 100000000000000) (11301921952136331 / 1000000000000000)
      (by linarith [hS.2]) (by linarith [hS.1]) hI0.1 hI0.2 (by norm_num) (by norm_num)
  have hw : (-1 + (-(2 * (1092233935333537 / 100000000000000))) / (1130192195213633 / 100000000000000)) / (2 * (314159265358979323846 / 100000000000000000000)) ≤
      (-1 + 2 * -(∑ x in Finset.range 100, besselI (x + 1) 4 * Real.sin ((x : ℝ) + 1) / ((x : ℝ) + 1)) / besselI 0 4) / (2 * Real.pi) ∧
      (-1 + 2 * -(∑ x in Finset.range 100, besselI (x + 1) 4 * Real.sin ((x : ℝ) + 1) / ((x : ℝ) + 1)) / besselI 0 4) / (2 * Real.pi) ≤
      (-1 + (-(2 * (273058483806583 / 25000000000000))) / (11301921952136331 / 1000000000000000)) / (2 * (314159265358979323847 / 100000000000000000000)) :=
    div_bounds_neg (-1 + (-(2 * (1092233935333537 / 100000000000000))) / (1130192195213633 / 100000000000000)) (-1 + (-(2 * (273058483806583 / 25000000000000))) / (11301921952136331 / 1000000000000000))
      (2 * (314159265358979323846 / 100000000000000000000)) (2 * (314159265358979323847 / 100000000000000000000))
      (by linarith [hq.1]) (by linarith [hq.2]) (by linarith) (by linarith)
      (by norm_num) (by norm_num)
  rw [abs_le]
  constructor <;> linarith [hw.1, hw.2]

theorem cdf_bound_S5 :
    |1 / 2 + (1 + (2 * ∑ x in Finset.range 100, besselI (x + 1) 4 * Real.sin ((x : ℝ) + 1) / ((x : ℝ) + 1)) / besselI 0 4) / (2 * Real.pi) -
        1933548358197093 / 2000000000000000| ≤ 1 / 1000000 := by
  have hS := SB_sum_enc
  have hI0 := besselI_0_4_enc
  have hpi1 := Real.pi_gt_d20
  have hpi2 := Real.pi_lt_d20
  have hq : (2 * (273058483806583 / 25000000000000)) / (11301921952136331 / 1000000000000000) ≤ 2 * (∑ x in Finset.range 100, besselI (x + 1) 4 * Real.sin ((x : ℝ) + 1) / ((x : ℝ) + 1)) / besselI 0 4 ∧
      2 * (∑ x in Finset.range 100, besselI (x + 1) 4 * Real.sin ((x : ℝ) + 1) / ((x : ℝ) + 1)) / besselI 0 4 ≤ (2 * (1092233935333537 / 100000000000000)) / (1130192195213633 / 100000000000000) :=
    div_bounds_pos (2 * (273058483806583 / 25000000000000)) (2 * (1092233935333537 / 100000000000000)) (1130192195213633 / 100000000000000) (11301921952136331 / 1000000000000000)
      (by linarith [hS.1]) (by linarith [hS.2]) hI0.1 hI0.2 (by norm_num) (by norm_num)
  have hw : (1 + (2 * (273058483806583 / 25000000000000)) / (11301921952136331 / 1000000000000000)) / (2 * (314159265358979323847 / 100000000000000000000)) ≤
      (1 + 2 * (∑ x in Finset.range 100, besselI (x + 1) 4 * Real.sin ((x : ℝ) + 1) / ((x : ℝ) + 1)) / besselI 0 4) / (2 * Real.pi) ∧
      (1 + 2 * (∑ x in Finset.range 100, besselI (x + 1) 4 * Real.sin ((x : ℝ) + 1) / ((x : ℝ) + 1)) / besselI 0 4) / (2 * Real.pi) ≤
      (1 + (2 * (1092233935333537 / 100000000000000)) / (1130192195213633 / 100000000000000)) / (2 * (314159265358979323846 / 100000000000000000000)) :=
    div_bounds_pos (1 + (2 * (273058483806583 / 25000000000000)) / (11301921952136331 / 1000000000000000)) (1 + (2 * (1092233935333537 / 100000000000000)) / (1130192195213633 / 100000000000000))
      (2 * (314159265358979323846 / 100000000000000000000)) (2 * (314159265358979323847 / 100000000000000000000))
      (by linarith [hq.1]) (by linarith [hq.2]) (by linarith) (by linarith)
      (by norm_num) (by norm_num)
  rw [abs_le]
  constructor <;> linarith [hw.1, hw.2]


/-- C8: for a provider delivering the exact modified Bessel values
(array slot j holds I_{j+1}(κ), `I0` returns I₀(κ)), each of the six
literal scenarios (location, concentration, x) evaluates to the listed
expected CDF value within tolerance 1e-6. -/
theorem cdf_literal_scenarios (p : BesselProvider)
    (hp : ∀ κ : ℝ, p.In_array 1 100 κ = (GslValue.Success, fun j => besselI (j + 1) κ))
    (hp0 : ∀ κ : ℝ, p.I0 κ = besselI 0 κ) :
    (∃ r : ℝ, VonMises.cdf p ⟨0, 1⟩ (-3) = CdfResult.ok r ∧
      |r - 0.006569944565732455| ≤ 1e-6) ∧
    (∃ r : ℝ, VonMises.cdf p ⟨0, 1⟩ 0 = CdfResult.ok r ∧ |r - 0.5| ≤ 1e-6) ∧
    (∃ r : ℝ, VonMises.cdf p ⟨0, 1⟩ 3 = CdfResult.ok r ∧
      |r - 0.9934300554342675| ≤ 1e-6) ∧
    (∃ r : ℝ, VonMises.cdf p ⟨0, 4⟩ (-1) = CdfResult.ok r ∧
      |r - 0.033225820901453484| ≤ 1e-6) ∧
    (∃ r : ℝ, VonMises.cdf p ⟨0, 4⟩ 1 = CdfResult.ok r ∧
      |r - 0.9667741790985465| ≤ 1e-6) ∧
    (∃ r : ℝ, VonMises.cdf p ⟨1, 1⟩ 1 = CdfResult.ok r ∧ |r - 0.5| ≤ 1e-6) := by
  refine ⟨?_, ?_, ?_, ?_, ?_, ?_⟩
  · simp only [VonMises.cdf, hp 1, hp0 1]
    norm_num
    exact cdf_bound_S1
  · simp only [VonMises.cdf, hp 1, hp0 1]
    norm_num
  · simp only [VonMises.cdf, hp 1, hp0 1]
    norm_num
    exact cdf_bound_S3
  · simp only [VonMises.cdf, hp 4, hp0 4]
    norm_num
    exact cdf_bound_S4
  · simp only [VonMises.cdf, hp 4, hp0 4]
    norm_num
    exact cdf_bound_S5
  · simp only [VonMises.cdf, hp 1, hp0 1]
    norm_num

/-- C8 witness: the six scenarios at the ideal provider that returns the
exact Bessel values. -/
theorem cdf_literal_scenarios_witness :
    (∃ r : ℝ, VonMises.cdf ⟨fun _ _ κ => (GslValue.Success, fun j => besselI (j + 1) κ),
        fun κ => besselI 0 κ⟩ ⟨0, 1⟩ (-3) = CdfResult.ok r ∧
      |r - 0.006569944565732455| ≤ 1e-6) ∧
    (∃ r : ℝ, VonMises.cdf ⟨fun _ _ κ => (GslValue.Success, fun j => besselI (j + 1) κ),
        fun κ => besselI 0 κ⟩ ⟨0, 1⟩ 0 = CdfResult.ok r ∧ |r - 0.5| ≤ 1e-6) ∧
    (∃ r : ℝ, VonMises.cdf ⟨fun _ _ κ => (GslValue.Success, fun j => besselI (j + 1) κ),
        fun κ => besselI 0 κ⟩ ⟨0, 1⟩ 3 = CdfResult.ok r ∧
      |r - 0.9934300554342675| ≤ 1e-6) ∧
    (∃ r : ℝ, VonMises.cdf ⟨fun _ _ κ => (GslValue.Success, fun j => besselI (j + 1) κ),
        fun κ => besselI 0 κ⟩ ⟨0, 4⟩ (-1) = CdfResult.ok r ∧
      |r - 0.033225820901453484| ≤ 1e-6) ∧
    (∃ r : ℝ, VonMises.cdf ⟨fun _ _ κ => (GslValue.Success, fun j => besselI (j + 1) κ),
        fun κ => besselI 0 κ⟩ ⟨0, 4⟩ 1 = CdfResult.ok r ∧
      |r - 0.9667741790985465| ≤ 1e-6) ∧
    (∃ r : ℝ, VonMises.cdf ⟨fun _ _ κ => (GslValue.Success, fun j => besselI (j + 1) κ),
        fun κ => besselI 0 κ⟩ ⟨1, 1⟩ 1 = CdfResult.ok r ∧ |r - 0.5| ≤ 1e-6) :=
  cdf_literal_scenarios _ (fun _ => rfl) (fun _ => rfl)
